import Mathlib

/-!
Verification development for the `services` package of the alai-youtube
repository: the response cache + pagination/aggregation layer.

The Go code is embedded shallowly:

* Go structs become Lean structures.  Pointer-typed fields that the code
  tests against `nil` before use (`Item.ContentDetails`,
  `ItemContentDetails.RelatedPlaylists`) are modelled as `Option`.
  Pointer-typed fields that the code dereferences unconditionally
  (`Video.Snippet`, `Video.Statistics`, the anonymous `Id`/`Snippet`
  structs of `TagSearchResults`) are modelled as plain fields; a nil
  pointer there would be a Go panic, which is outside the modelled
  behaviours.
* Go maps `map[string]V` become functions `String → Option V`; a lookup
  of an absent key and a lookup of a key holding a nil pointer both give
  `none`, exactly as a Go map of pointers conflates the two for readers.
* The HTTP transport plus JSON decoding is abstracted as an oracle
  `fetch : ... → Except String R`: the code only ever observes the
  decoded struct or an error.  Each operation additionally returns the
  number of oracle invocations it performed, and the cache state it
  leaves behind, so that cache-hit and error-propagation properties can
  be stated.
* Go `for` loops with an index bound become fuel recursion, the fuel
  being the loop bound; early `return`/`break` become the corresponding
  constructors.
-/

/-! ## Data model (structs of the `services` package) -/

/-- One size variant of a thumbnail (url plus pixel dimensions). -/
structure ThumbVariant where
  url : String
  width : Int
  height : Int
deriving Repr, DecidableEq, Inhabited

/-- `Thumbnails`: three optional size variants. -/
structure Thumbnails where
  thumbDefault : Option ThumbVariant
  medium : Option ThumbVariant
  high : Option ThumbVariant
deriving Repr, DecidableEq, Inhabited

/-- The snippet block of a `Video` (dereferenced unconditionally by the
code, hence modelled as a plain field of `Video`). -/
structure VideoSnippet where
  channelId : String
  channelTitle : String
  publishedAt : String
  title : String
  description : String
  thumbnails : Thumbnails
  tags : List String
  formattedTags : String
deriving Repr, DecidableEq, Inhabited

/-- The statistics block of a `Video`; numeric values are transported as
decimal strings, as upstream sends them. -/
structure VideoStatistics where
  viewCount : String
  likeCount : String
  dislikeCount : String
  favoriteCount : String
  commentCount : String
deriving Repr, DecidableEq, Inhabited

/-- `Video`: one item of a video-detail lookup result. -/
structure Video where
  id : String
  snippet : VideoSnippet
  statistics : VideoStatistics
deriving Repr, DecidableEq, Inhabited

/-- `VideoResults`: items plus continuation token. -/
structure VideoResults where
  items : List Video
  nextPageToken : String
deriving Repr, DecidableEq, Inhabited

/-- One item of `TagSearchResults` with the nested anonymous `Id` and
`Snippet` structs flattened (the code dereferences both). -/
structure TagSearchItem where
  videoId : String
  publishedAt : String
  title : String
  description : String
  channelTitle : String
  channelId : String
  thumbnails : Thumbnails
deriving Repr, DecidableEq, Inhabited

/-- `TagSearchResults`: one decoded page of the keyword-search endpoint. -/
structure TagSearchResults where
  items : List TagSearchItem
  nextPageToken : String
deriving Repr, DecidableEq, Inhabited

/-- One item of `ChannelPlaylistVideoResults`, nested structs flattened. -/
structure PlaylistVideoItem where
  id : String
  publishedAt : String
  title : String
  description : String
  channelTitle : String
  thumbnails : Thumbnails
  videoId : String
  videoPublishedAt : String
deriving Repr, DecidableEq, Inhabited

/-- `ChannelPlaylistVideoResults`: one decoded page of the playlist-items
endpoint. -/
structure ChannelPlaylistVideoResults where
  items : List PlaylistVideoItem
  totalResults : Int
  nextPageToken : String
deriving Repr, DecidableEq, Inhabited

/-- `RelatedPlaylists` block of a channel item. -/
structure RelatedPlaylists where
  likes : String
  uploads : String
deriving Repr, DecidableEq, Inhabited

/-- `ContentDetails` block of a channel item; its `RelatedPlaylists`
pointer is tested against nil by the code, hence `Option`. -/
structure ItemContentDetails where
  relatedPlaylists : Option RelatedPlaylists
deriving Repr, DecidableEq, Inhabited

/-- Localized title/description of a channel item. -/
structure ItemLocalized where
  title : String
  description : String
deriving Repr, DecidableEq, Inhabited

/-- Snippet block of a channel `Item`. -/
structure ItemSnippet where
  publishedAt : String
  title : String
  description : String
  customUrl : String
  channelTitle : String
  thumbnails : Thumbnails
  localized : Option ItemLocalized
  country : String
deriving Repr, DecidableEq, Inhabited

/-- Statistics block of a channel `Item`. -/
structure ItemStatistics where
  viewCount : String
  subscriberCount : String
  hiddenSubscriberCount : Bool
  videoCount : String
deriving Repr, DecidableEq, Inhabited

/-- `Item`: a channel record item.  `ContentDetails` is nil-tested by
`GetChannelPlaylist`, hence `Option`. -/
structure Item where
  id : String
  snippet : Option ItemSnippet
  contentDetails : Option ItemContentDetails
  statistics : Option ItemStatistics
deriving Repr, DecidableEq, Inhabited

/-- `ChannelInfo`: items plus continuation token. -/
structure ChannelInfo where
  items : List Item
  nextPageToken : String
deriving Repr, DecidableEq, Inhabited

/-- `VidSnippetInfo`: the auxiliary per-id record `FindTags` collects from
search pages for later merging. -/
structure VidSnippetInfo where
  channelTitle : String
  channelId : String
  thumbnails : Thumbnails
deriving Repr, DecidableEq, Inhabited

/-! ## Go standard-library functions used by the code -/

/-- `strings.Join(elems, sep)`. -/
def stringsJoin (elems : List String) (sep : String) : String :=
  match elems with
  | [] => ""
  | [x] => x
  | x :: xs => x ++ sep ++ stringsJoin xs sep

/-- `strings.Replace(input, " ", "%20%", -1)` as used by `FindTags`. -/
def replaceSpaces (s : String) : String :=
  String.mk (List.flatten (s.data.map fun c => if c = ' ' then ['%', '2', '0', '%'] else [c]))

/-- Character-level worker for `strings.Split(s, ",")`: `acc` holds the
current field reversed. -/
def splitCommaChars : List Char → List Char → List (List Char)
  | [], acc => [acc.reverse]
  | c :: cs, acc => if c = ',' then acc.reverse :: splitCommaChars cs [] else splitCommaChars cs (c :: acc)

/-- `strings.Split(s, ",")`. -/
def stringsSplitComma (s : String) : List String :=
  (splitCommaChars s.data []).map String.mk

/-- The numeric value of a list of ASCII digits. -/
def digitsVal (ds : List Char) : Nat :=
  ds.foldl (fun acc c => acc * 10 + (c.toNat - Char.toNat '0')) 0

/-- `strconv.Atoi` on a 64-bit platform: optional single leading sign,
then one or more ASCII digits, value within `[-2^63, 2^63 - 1]`;
anything else is an error (the code only branches on error vs success,
so the two Go error kinds are collapsed into `Except.error`). -/
def atoi (s : String) : Except String Int :=
  match s.data with
  | [] => .error "invalid syntax"
  | c :: rest =>
    let signDigits : Bool × List Char :=
      if c = '-' then (true, rest) else if c = '+' then (false, rest) else (false, c :: rest)
    if signDigits.2 = [] then .error "invalid syntax"
    else if signDigits.2.all Char.isDigit then
      let v : Int := if signDigits.1 then -(digitsVal signDigits.2 : Int) else (digitsVal signDigits.2 : Int)
      if v < -(2 ^ 63) ∨ 2 ^ 63 - 1 < v then .error "value out of range" else .ok v
    else .error "invalid syntax"

/-! ## Batcher (`batchIteration`) -/

/-- The consecutive at-most-50-element chunks that `batchIteration`'s loop
walks (`input[i:end]` for `i = 0, 50, 100, ...`). -/
def batchChunks : List String → List (List String)
  | [] => []
  | x :: rest => ((x :: rest).take 50) :: batchChunks ((x :: rest).drop 50)
termination_by l => l.length
decreasing_by simp [List.length_drop]; omega

/-- Structural worker for `batchIteration`: the fuel bounds the number of
chunks taken and starts at the list length, which suffices because every
step consumes at least one element.  Fuel recursion keeps the definition
kernel-computable. -/
def batchIterationGo : Nat → List String → List String
  | _, [] => []
  | 0, _ :: _ => []
  | fuel + 1, x :: rest =>
    stringsJoin ((x :: rest).take 50) "," :: batchIterationGo fuel ((x :: rest).drop 50)

/-- `batchIteration`: splits the id list into chunks of at most 50 and
comma-joins each chunk, exactly as the Go loop
`for i := 0; i < len(input); i += 50 { ... strings.Join(input[i:end], ",") }`. -/
def batchIteration (input : List String) : List String :=
  batchIterationGo input.length input

deriving instance DecidableEq for Except

example : batchIteration ["a", "b"] = ["a,b"] := by decide
example : batchIteration [] = [] := by decide
example : stringsSplitComma "a,b" = ["a", "b"] := by decide
example : atoi "1500" = .ok 1500 := by decide
example : atoi "" = .error "invalid syntax" := by decide
example : atoi "abc" = .error "invalid syntax" := by decide
example : atoi "-42" = .ok (-42) := by decide

/-! ## Split/join lemmas for the Batcher -/

/-- Char-level comma join, mirror of `stringsJoin · ","` on `.data`. -/
def joinCommaChars : List (List Char) → List Char
  | [] => []
  | [x] => x
  | x :: xs => x ++ ',' :: joinCommaChars xs

theorem stringMk_data (s : String) : String.mk s.data = s := rfl

theorem stringsJoin_comma_data (c : List String) :
    (stringsJoin c ",").data = joinCommaChars (c.map String.data) := by
  induction c with
  | nil => rfl
  | cons x xs ih =>
    cases xs with
    | nil => rfl
    | cons y ys =>
      simp only [stringsJoin, joinCommaChars, List.map, String.data_append, ih]
      simp [String.data]

theorem splitCommaChars_append (s : List Char) (h : ',' ∉ s) (rest acc : List Char) :
    splitCommaChars (s ++ rest) acc = splitCommaChars rest (s.reverse ++ acc) := by
  induction s generalizing acc with
  | nil => simp
  | cons c cs ih =>
    simp only [List.mem_cons, not_or] at h
    have hc : ¬ (c = ',') := fun hcc => h.1 hcc.symm
    change (if c = ',' then acc.reverse :: splitCommaChars (cs ++ rest) []
      else splitCommaChars (cs ++ rest) (c :: acc)) = splitCommaChars rest ((c :: cs).reverse ++ acc)
    rw [if_neg hc, ih h.2]
    congr 1
    simp

theorem splitCommaChars_of_no_comma (s acc : List Char) (h : ',' ∉ s) :
    splitCommaChars s acc = [acc.reverse ++ s] := by
  have h2 := splitCommaChars_append s h [] acc
  simpa [splitCommaChars] using h2

theorem splitCommaChars_joinCommaChars (c : List (List Char)) (h0 : c ≠ [])
    (h : ∀ s ∈ c, ',' ∉ s) : splitCommaChars (joinCommaChars c) [] = c := by
  induction c with
  | nil => simp at h0
  | cons x xs ih =>
    cases xs with
    | nil =>
      simp only [joinCommaChars]
      rw [splitCommaChars_of_no_comma x [] (h x (by simp))]
      simp
    | cons y ys =>
      have hx : ',' ∉ x := h x (by simp)
      simp only [joinCommaChars]
      rw [splitCommaChars_append x hx]
      simp only [splitCommaChars, if_pos rfl]
      rw [ih (by simp) (fun s hs => h s (List.mem_cons_of_mem x hs))]
      simp

theorem stringsSplitComma_stringsJoin (c : List String) (h0 : c ≠ [])
    (h : ∀ s ∈ c, ',' ∉ s.data) : stringsSplitComma (stringsJoin c ",") = c := by
  unfold stringsSplitComma
  rw [stringsJoin_comma_data, splitCommaChars_joinCommaChars]
  · rw [List.map_map]
    have hid : (String.mk ∘ String.data) = id := funext fun s => stringMk_data s
    rw [hid, List.map_id]
  · simpa using h0
  · intro s hs
    rcases List.mem_map.mp hs with ⟨t, ht, rfl⟩
    exact h t ht

/-! ## Batcher chunk lemmas -/

theorem batchIterationGo_eq_map (fuel : Nat) (l : List String) (h : l.length ≤ fuel) :
    batchIterationGo fuel l = (batchChunks l).map (fun cnk => stringsJoin cnk ",") := by
  induction fuel generalizing l with
  | zero =>
    cases l with
    | nil => simp [batchIterationGo, batchChunks]
    | cons x rest => simp at h
  | succ n ih =>
    cases l with
    | nil => simp [batchIterationGo, batchChunks]
    | cons x rest =>
      simp only [batchIterationGo, batchChunks, List.map]
      rw [ih ((x :: rest).drop 50) (by simp only [List.length_drop, List.length_cons] at h ⊢; omega)]

theorem batchIteration_eq_map (l : List String) :
    batchIteration l = (batchChunks l).map (fun cnk => stringsJoin cnk ",") :=
  batchIterationGo_eq_map l.length l le_rfl

theorem batchChunks_flatten (l : List String) : (batchChunks l).flatten = l := by
  induction l using batchChunks.induct with
  | case1 => simp [batchChunks]
  | case2 x rest ih =>
    simp only [batchChunks, List.flatten, ih]
    exact List.take_append_drop 50 (x :: rest)

theorem batchChunks_length (l : List String) :
    (batchChunks l).length = (l.length + 49) / 50 := by
  induction l using batchChunks.induct with
  | case1 => simp [batchChunks]
  | case2 x rest ih =>
    simp only [batchChunks, List.length_cons, ih, List.length_drop]
    omega

theorem batchChunks_mem_length (l : List String) (c : List String)
    (hc : c ∈ batchChunks l) : c.length ≤ 50 := by
  induction l using batchChunks.induct with
  | case1 => simp [batchChunks] at hc
  | case2 x rest ih =>
    simp only [batchChunks, List.mem_cons] at hc
    rcases hc with rfl | hc
    · exact List.length_take_le 50 (x :: rest)
    · exact ih hc

theorem batchChunks_mem_ne_nil (l : List String) (c : List String)
    (hc : c ∈ batchChunks l) : c ≠ [] := by
  induction l using batchChunks.induct with
  | case1 => simp [batchChunks] at hc
  | case2 x rest ih =>
    simp only [batchChunks, List.mem_cons] at hc
    rcases hc with rfl | hc
    · simp
    · exact ih hc

theorem batchChunks_mem_mem (l : List String) (c : List String)
    (hc : c ∈ batchChunks l) (s : String) (hs : s ∈ c) : s ∈ l := by
  induction l using batchChunks.induct with
  | case1 => simp [batchChunks] at hc
  | case2 x rest ih =>
    simp only [batchChunks, List.mem_cons] at hc
    rcases hc with rfl | hc
    · exact List.take_subset 50 (x :: rest) hs
    · exact List.drop_subset 50 (x :: rest) (ih hc)

/-! ## MemoryCache (`memory_cache.go`)

Each Go map `map[string]*T` is modelled as `String → Option T`: looking
up an absent key and looking up a key that holds a nil pointer both
yield `none`, exactly as both yield nil to a Go reader. -/

structure MemoryCache where
  videoCache : String → Option VideoResults
  channelCache : String → Option ChannelInfo
  playlistCache : String → Option VideoResults
  videoDetailsCache : String → Option VideoResults

/-- `NewMemoryCache`: all four partitions start empty. -/
def NewMemoryCache : MemoryCache :=
  ⟨fun _ => none, fun _ => none, fun _ => none, fun _ => none⟩

def MemoryCache.GetVideo (c : MemoryCache) (key : String) : Option VideoResults :=
  c.videoCache key

def MemoryCache.SetVideo (c : MemoryCache) (key : String) (video : Option VideoResults) : MemoryCache :=
  { c with videoCache := fun k => if k = key then video else c.videoCache k }

def MemoryCache.GetChannel (c : MemoryCache) (key : String) : Option ChannelInfo :=
  c.channelCache key

def MemoryCache.SetChannel (c : MemoryCache) (key : String) (channel : Option ChannelInfo) : MemoryCache :=
  { c with channelCache := fun k => if k = key then channel else c.channelCache k }

def MemoryCache.GetPlaylist (c : MemoryCache) (key : String) : Option VideoResults :=
  c.playlistCache key

def MemoryCache.SetPlaylist (c : MemoryCache) (key : String) (playlist : Option VideoResults) : MemoryCache :=
  { c with playlistCache := fun k => if k = key then playlist else c.playlistCache k }

def MemoryCache.GetVideoDetail (c : MemoryCache) (key : String) : Option VideoResults :=
  c.videoDetailsCache key

def MemoryCache.SetVideoDetail (c : MemoryCache) (key : String) (detail : Option VideoResults) : MemoryCache :=
  { c with videoDetailsCache := fun k => if k = key then detail else c.videoDetailsCache k }

/-- Primitive steps a `MemoryCache` method performs: acquiring/releasing
the single `sync.Mutex` embedded in the struct, and one map access. -/
inductive CacheEv where
  | lock
  | unlock
  | readVideoMap (key : String)
  | writeVideoMap (key : String)
  | readChannelMap (key : String)
  | writeChannelMap (key : String)
  | readPlaylistMap (key : String)
  | writePlaylistMap (key : String)
  | readVideoDetailsMap (key : String)
  | writeVideoDetailsMap (key : String)
deriving Repr, DecidableEq

/-- Step trace of `GetVideo`: `c.Lock(); defer c.Unlock(); return c.videoCache[key]`. -/
def GetVideoEvents (key : String) : List CacheEv := [.lock, .readVideoMap key, .unlock]

/-- Step trace of `SetVideo`: `c.Lock(); defer c.Unlock(); c.videoCache[key] = video`. -/
def SetVideoEvents (key : String) : List CacheEv := [.lock, .writeVideoMap key, .unlock]

/-- Step trace of `GetChannel`. -/
def GetChannelEvents (key : String) : List CacheEv := [.lock, .readChannelMap key, .unlock]

/-- Step trace of `SetChannel`. -/
def SetChannelEvents (key : String) : List CacheEv := [.lock, .writeChannelMap key, .unlock]

/-- Step trace of `GetPlaylist`. -/
def GetPlaylistEvents (key : String) : List CacheEv := [.lock, .readPlaylistMap key, .unlock]

/-- Step trace of `SetPlaylist`. -/
def SetPlaylistEvents (key : String) : List CacheEv := [.lock, .writePlaylistMap key, .unlock]

/-- Step trace of `GetVideoDetail`. -/
def GetVideoDetailEvents (key : String) : List CacheEv := [.lock, .readVideoDetailsMap key, .unlock]

/-- Step trace of `SetVideoDetail`. -/
def SetVideoDetailEvents (key : String) : List CacheEv := [.lock, .writeVideoDetailsMap key, .unlock]

/-! ## Aggregator/Merger (`FindTags` filter loop, `processVideoItems`) -/

/-- `MinViews`: threshold for the `FindTags` view-count filter. -/
def MinViews : Int := 1000

/-- The merge performed inside `FindTags`'s filter loop: if the auxiliary
index has an entry for the item's id, overwrite channel id, channel
title and thumbnails on the item's snippet; otherwise leave the item
untouched. -/
def mergeSnippetInfo (vidIds : String → Option VidSnippetInfo) (item : Video) : Video :=
  match vidIds item.id with
  | some snippetInfo =>
    { item with snippet :=
        { item.snippet with
            channelId := snippetInfo.channelId
            channelTitle := snippetInfo.channelTitle
            thumbnails := snippetInfo.thumbnails } }
  | none => item

/-- The filter loop of `FindTags` (lines building `filteredItems`): an
item with empty view-count string is skipped; a non-empty view-count
string is parsed with `strconv.Atoi`, a parse error aborting the whole
call; an item whose views strictly exceed `MinViews` is merged via the
auxiliary index and kept, others are dropped. -/
def filterAndMerge (vidIds : String → Option VidSnippetInfo) : List Video → Except String (List Video)
  | [] => .ok []
  | item :: rest =>
    if item.statistics.viewCount = "" then filterAndMerge vidIds rest
    else
      match atoi item.statistics.viewCount with
      | .error e => .error e
      | .ok views =>
        if views > MinViews then
          match filterAndMerge vidIds rest with
          | .error e => .error e
          | .ok tail => .ok (mergeSnippetInfo vidIds item :: tail)
        else filterAndMerge vidIds rest

/-- `processVideoItems`: overwrite each item's thumbnails from the
per-id thumbnail map collected from the playlist listing; items absent
from the map pass through unchanged. -/
def processVideoItems (videos : VideoResults) (thumbnails : String → Option Thumbnails) : VideoResults :=
  { videos with items := videos.items.map (fun item =>
      match thumbnails item.id with
      | some thumbs => { item with snippet := { item.snippet with thumbnails := thumbs } }
      | none => item) }

/-! ## Service operations

Each operation returns an `OpResult`: the Go return value(s), the cache
state the operation leaves behind, and the number of upstream page
fetches (HTTP GET + decode, abstracted as one oracle call) it made. -/

structure OpResult (α : Type) where
  result : α
  err : Option String
  cache : MemoryCache
  calls : Nat

/-- Inner pagination loop of `GetVideos` for one batch `fSearch`.  The
fuel is the Go loop bound `int(math.Ceil(float64(len(input))/float64(10)))`
(the float arithmetic is exact for any feasible batch count); `i` is the
loop index, which decides whether a pageToken parameter is appended.
Faithful quirk: the code assigns `nextPage = res.NextPageToken` and
breaks BEFORE appending `res.Items` when the token is empty, so the
final page's items are never accumulated. -/
def getVideosLoop (fetch : String → String → Except String VideoResults) (fSearch : String) :
    Nat → Nat → String → List Video → List Video × Option String × Nat
  | 0, _, _, acc => (acc, none, 0)
  | fuel + 1, i, nextPage, acc =>
    match fetch fSearch (if 0 < i then "&pageToken=" ++ nextPage else "") with
    | .error e => (acc, some e, 1)
    | .ok res =>
      if res.nextPageToken = "" then (acc, none, 1)
      else
        let r := getVideosLoop fetch fSearch fuel (i + 1) res.nextPageToken (acc ++ res.items)
        (r.1, r.2.1, r.2.2 + 1)

/-- Outer loop of `GetVideos` over the comma-joined batches; a failed
batch returns the accumulation so far together with the error (the Go
`return &finalProduct, err`). -/
def getVideosBatches (fetch : String → String → Except String VideoResults) (cap : Nat) :
    List String → List Video → List Video × Option String × Nat
  | [], acc => (acc, none, 0)
  | fSearch :: rest, acc =>
    let r := getVideosLoop fetch fSearch cap 0 "" acc
    match r.2.1 with
    | some e => (r.1, some e, r.2.2)
    | none =>
      let r2 := getVideosBatches fetch cap rest r.1
      (r2.1, r2.2.1, r.2.2 + r2.2.2)

/-- `GetVideos`: cache key is the comma-joined id list; on miss, batches
the ids and pages each batch, then caches the assembled result under the
key.  On error the partially assembled `finalProduct` is returned
alongside the error and nothing is cached. -/
def GetVideos (fetch : String → String → Except String VideoResults) (yt : MemoryCache)
    (videoIds : List String) : OpResult VideoResults :=
  match yt.GetVideoDetail (stringsJoin videoIds ",") with
  | some v => ⟨v, none, yt, 0⟩
  | none =>
    let input := batchIteration videoIds
    let r := getVideosBatches fetch ((input.length + 9) / 10) input []
    match r.2.1 with
    | some e => ⟨⟨r.1, ""⟩, some e, yt, r.2.2⟩
    | none => ⟨⟨r.1, ""⟩, none, yt.SetVideoDetail (stringsJoin videoIds ",") (some ⟨r.1, ""⟩), r.2.2⟩

/-- Search-page loop of `FindTags`: collects video ids (in page order)
and the per-id `VidSnippetInfo` map; items are appended BEFORE the
token check here, unlike in `getVideosLoop`. -/
def findTagsSearchLoop (searchFetch : String → String → Except String TagSearchResults) (fSearch : String) :
    Nat → Nat → String → List String → (String → Option VidSnippetInfo) →
    Except String (List String × (String → Option VidSnippetInfo)) × Nat
  | 0, _, _, videos, vidIds => (.ok (videos, vidIds), 0)
  | fuel + 1, i, nextPage, videos, vidIds =>
    match searchFetch fSearch (if 0 < i then "&pageToken=" ++ nextPage else "") with
    | .error e => (.error e, 1)
    | .ok res =>
      let videos2 := videos ++ res.items.map TagSearchItem.videoId
      let vidIds2 := res.items.foldl
        (fun m v => fun k => if k = v.videoId then some ⟨v.channelTitle, v.channelId, v.thumbnails⟩ else m k)
        vidIds
      if res.nextPageToken = "" then (.ok (videos2, vidIds2), 1)
      else
        let r := findTagsSearchLoop searchFetch fSearch fuel (i + 1) res.nextPageToken videos2 vidIds2
        (r.1, r.2 + 1)

/-- `FindTags`: cache key is the raw input string; on miss, pages the
search endpoint (at most `numPages` pages), looks the collected ids up
via `GetVideos`, filters and merges, caches and returns.  Any error is
returned with a nil result. -/
def FindTags (searchFetch : String → String → Except String TagSearchResults)
    (videoFetch : String → String → Except String VideoResults)
    (yt : MemoryCache) (input : String) (numPages : Int) : OpResult (Option VideoResults) :=
  match yt.GetVideo input with
  | some v => ⟨some v, none, yt, 0⟩
  | none =>
    let sr := findTagsSearchLoop searchFetch (replaceSpaces input) numPages.toNat 0 "" [] (fun _ => none)
    match sr.1 with
    | .error e => ⟨none, some e, yt, sr.2⟩
    | .ok (videos, vidIds) =>
      let gv := GetVideos videoFetch yt videos
      match gv.err with
      | some e => ⟨none, some e, gv.cache, sr.2 + gv.calls⟩
      | none =>
        match filterAndMerge vidIds gv.result.items with
        | .error e => ⟨none, some e, gv.cache, sr.2 + gv.calls⟩
        | .ok filteredItems =>
          ⟨some ⟨filteredItems, gv.result.nextPageToken⟩, none,
            (gv.cache).SetVideo input (some ⟨filteredItems, gv.result.nextPageToken⟩), sr.2 + gv.calls⟩

/-- `GetChannelInfo`: cached under the raw channel id; a transport/decode
failure maps to "channel info not found", an empty items list to
"no item available in cInfo". -/
def GetChannelInfo (channelFetch : String → Except String ChannelInfo) (yt : MemoryCache)
    (channelId : String) : OpResult (Option ChannelInfo) :=
  match yt.GetChannel channelId with
  | some v => ⟨some v, none, yt, 0⟩
  | none =>
    match channelFetch channelId with
    | .error _ => ⟨none, some "channel info not found", yt, 1⟩
    | .ok cInfo =>
      if cInfo.items.length = 0 then ⟨none, some "no item available in cInfo", yt, 1⟩
      else ⟨some cInfo, none, yt.SetChannel channelId (some cInfo), 1⟩

/-- `calculateNumPages`: Go integer division and remainder (toward zero,
matching `Int.div`/`Int.mod`). -/
def calculateNumPages (numItems : Int) : Int :=
  if Int.tmod numItems 50 > 0 then Int.tdiv numItems 50 + 1 else Int.tdiv numItems 50

/-- Page loop of `fetchPlaylistVideos`: collects video ids (page order)
and the per-id thumbnail map; items are appended before the token check. -/
def fetchPlaylistVideosLoop (playlistFetch : String → String → Except String ChannelPlaylistVideoResults)
    (playlistId : String) :
    Nat → Nat → String → List String → (String → Option Thumbnails) →
    Except String (List String × (String → Option Thumbnails)) × Nat
  | 0, _, _, videos, thumbnails => (.ok (videos, thumbnails), 0)
  | fuel + 1, i, nextPage, videos, thumbnails =>
    match playlistFetch playlistId (if 0 < i then "&pageToken=" ++ nextPage else "") with
    | .error e => (.error e, 1)
    | .ok res =>
      let videos2 := videos ++ res.items.map PlaylistVideoItem.videoId
      let thumbs2 := res.items.foldl
        (fun m v => fun k => if k = v.videoId then some v.thumbnails else m k) thumbnails
      if res.nextPageToken = "" then (.ok (videos2, thumbs2), 1)
      else
        let r := fetchPlaylistVideosLoop playlistFetch playlistId fuel (i + 1) res.nextPageToken videos2 thumbs2
        (r.1, r.2 + 1)

/-- Lower-case `getChannelPlaylist`: pages the playlist endpoint for
`calculateNumPages numItems` pages, looks the ids up via `GetVideos`,
then merges thumbnails via `processVideoItems`. -/
def getChannelPlaylist (playlistFetch : String → String → Except String ChannelPlaylistVideoResults)
    (videoFetch : String → String → Except String VideoResults)
    (yt : MemoryCache) (playlistId : String) (numItems : Int) : OpResult (Option VideoResults) :=
  let fr := fetchPlaylistVideosLoop playlistFetch playlistId (calculateNumPages numItems).toNat 0 "" [] (fun _ => none)
  match fr.1 with
  | .error e => ⟨none, some e, yt, fr.2⟩
  | .ok (videos, thumbnails) =>
    let gv := GetVideos videoFetch yt videos
    match gv.err with
    | some e => ⟨none, some e, gv.cache, fr.2 + gv.calls⟩
    | none => ⟨some (processVideoItems gv.result thumbnails), none, gv.cache, fr.2 + gv.calls⟩

/-- `GetChannelPlaylist`: the cache key is `item.Id + "-" + strconv.Itoa(vidCount)`.
On a nil `ContentDetails` or `RelatedPlaylists` the code stores nil
under the key and returns an error; wrapped errors become
"internal server error"; a nil result (dead in practice) becomes
"no results found" without caching. -/
def GetChannelPlaylist (playlistFetch : String → String → Except String ChannelPlaylistVideoResults)
    (videoFetch : String → String → Except String VideoResults)
    (yt : MemoryCache) (item : Item) (vidCount : Int) : OpResult (Option VideoResults) :=
  match yt.GetPlaylist (item.id ++ "-" ++ toString vidCount) with
  | some v => ⟨some v, none, yt, 0⟩
  | none =>
    match item.contentDetails with
    | none =>
      ⟨none, some "contentDetails or RelatedPlaylists are nil",
        yt.SetPlaylist (item.id ++ "-" ++ toString vidCount) none, 0⟩
    | some cd =>
      match cd.relatedPlaylists with
      | none =>
        ⟨none, some "contentDetails or RelatedPlaylists are nil",
          yt.SetPlaylist (item.id ++ "-" ++ toString vidCount) none, 0⟩
      | some rp =>
        let r := getChannelPlaylist playlistFetch videoFetch yt rp.uploads vidCount
        match r.err with
        | some _ => ⟨none, some "internal server error", r.cache, r.calls⟩
        | none =>
          match r.result with
          | none => ⟨none, some "no results found", r.cache, r.calls⟩
          | some results =>
            ⟨some results, none,
              (r.cache).SetPlaylist (item.id ++ "-" ++ toString vidCount) (some results), r.calls⟩

/-- `SearchAndRetrieveTags`: clamps the optional requested page count
into `[1, 5]` and delegates to `FindTags`. -/
def SearchAndRetrieveTags (searchFetch : String → String → Except String TagSearchResults)
    (videoFetch : String → String → Except String VideoResults)
    (yt : MemoryCache) (search : String) (pages : Option Int) : OpResult (Option VideoResults) :=
  FindTags searchFetch videoFetch yt search
    (match pages with
     | none => 1
     | some p => if p > 1 then (if p ≥ 5 then 5 else p) else 1)

/-! ## Cache get/set helper lemmas -/

@[simp] theorem getVideo_setVideo_same (c : MemoryCache) (k : String) (v : Option VideoResults) :
    (c.SetVideo k v).GetVideo k = v := by
  simp [MemoryCache.GetVideo, MemoryCache.SetVideo]

theorem getVideo_setVideo_other (c : MemoryCache) (k k2 : String) (v : Option VideoResults)
    (h : k2 ≠ k) : (c.SetVideo k v).GetVideo k2 = c.GetVideo k2 := by
  simp [MemoryCache.GetVideo, MemoryCache.SetVideo, h]

@[simp] theorem getChannel_setChannel_same (c : MemoryCache) (k : String) (v : Option ChannelInfo) :
    (c.SetChannel k v).GetChannel k = v := by
  simp [MemoryCache.GetChannel, MemoryCache.SetChannel]

theorem getChannel_setChannel_other (c : MemoryCache) (k k2 : String) (v : Option ChannelInfo)
    (h : k2 ≠ k) : (c.SetChannel k v).GetChannel k2 = c.GetChannel k2 := by
  simp [MemoryCache.GetChannel, MemoryCache.SetChannel, h]

@[simp] theorem getPlaylist_setPlaylist_same (c : MemoryCache) (k : String) (v : Option VideoResults) :
    (c.SetPlaylist k v).GetPlaylist k = v := by
  simp [MemoryCache.GetPlaylist, MemoryCache.SetPlaylist]

theorem getPlaylist_setPlaylist_other (c : MemoryCache) (k k2 : String) (v : Option VideoResults)
    (h : k2 ≠ k) : (c.SetPlaylist k v).GetPlaylist k2 = c.GetPlaylist k2 := by
  simp [MemoryCache.GetPlaylist, MemoryCache.SetPlaylist, h]

@[simp] theorem getVideoDetail_setVideoDetail_same (c : MemoryCache) (k : String)
    (v : Option VideoResults) : (c.SetVideoDetail k v).GetVideoDetail k = v := by
  simp [MemoryCache.GetVideoDetail, MemoryCache.SetVideoDetail]

theorem getVideoDetail_setVideoDetail_other (c : MemoryCache) (k k2 : String)
    (v : Option VideoResults) (h : k2 ≠ k) :
    (c.SetVideoDetail k v).GetVideoDetail k2 = c.GetVideoDetail k2 := by
  simp [MemoryCache.GetVideoDetail, MemoryCache.SetVideoDetail, h]

/-! ## Claim C10 -/

/-- C10: for every cache partition (video, channel, playlist,
video-detail), `Get k` immediately after `Set k v` on a `MemoryCache`
returns exactly `v`; `Set` on one key leaves every other key of its
partition and every key of every other partition unchanged; and every
Get/Set method's step trace acquires the cache's single shared mutex
first and releases it last (`c.Lock(); defer c.Unlock(); ...`). -/
theorem memoryCache_get_after_set_frame_and_lock (c : MemoryCache) (k k2 k3 : String)
    (hne : k2 ≠ k) (v : Option VideoResults) (ci : Option ChannelInfo) :
    ((c.SetVideo k v).GetVideo k = v)
    ∧ ((c.SetChannel k ci).GetChannel k = ci)
    ∧ ((c.SetPlaylist k v).GetPlaylist k = v)
    ∧ ((c.SetVideoDetail k v).GetVideoDetail k = v)
    ∧ ((c.SetVideo k v).GetVideo k2 = c.GetVideo k2)
    ∧ ((c.SetChannel k ci).GetChannel k2 = c.GetChannel k2)
    ∧ ((c.SetPlaylist k v).GetPlaylist k2 = c.GetPlaylist k2)
    ∧ ((c.SetVideoDetail k v).GetVideoDetail k2 = c.GetVideoDetail k2)
    ∧ ((c.SetVideo k v).GetChannel k3 = c.GetChannel k3)
    ∧ ((c.SetVideo k v).GetPlaylist k3 = c.GetPlaylist k3)
    ∧ ((c.SetVideo k v).GetVideoDetail k3 = c.GetVideoDetail k3)
    ∧ ((c.SetChannel k ci).GetVideo k3 = c.GetVideo k3)
    ∧ ((c.SetChannel k ci).GetPlaylist k3 = c.GetPlaylist k3)
    ∧ ((c.SetChannel k ci).GetVideoDetail k3 = c.GetVideoDetail k3)
    ∧ ((c.SetPlaylist k v).GetVideo k3 = c.GetVideo k3)
    ∧ ((c.SetPlaylist k v).GetChannel k3 = c.GetChannel k3)
    ∧ ((c.SetPlaylist k v).GetVideoDetail k3 = c.GetVideoDetail k3)
    ∧ ((c.SetVideoDetail k v).GetVideo k3 = c.GetVideo k3)
    ∧ ((c.SetVideoDetail k v).GetChannel k3 = c.GetChannel k3)
    ∧ ((c.SetVideoDetail k v).GetPlaylist k3 = c.GetPlaylist k3)
    ∧ ((GetVideoEvents k).head? = some .lock ∧ (GetVideoEvents k).getLast? = some .unlock)
    ∧ ((SetVideoEvents k).head? = some .lock ∧ (SetVideoEvents k).getLast? = some .unlock)
    ∧ ((GetChannelEvents k).head? = some .lock ∧ (GetChannelEvents k).getLast? = some .unlock)
    ∧ ((SetChannelEvents k).head? = some .lock ∧ (SetChannelEvents k).getLast? = some .unlock)
    ∧ ((GetPlaylistEvents k).head? = some .lock ∧ (GetPlaylistEvents k).getLast? = some .unlock)
    ∧ ((SetPlaylistEvents k).head? = some .lock ∧ (SetPlaylistEvents k).getLast? = some .unlock)
    ∧ ((GetVideoDetailEvents k).head? = some .lock ∧ (GetVideoDetailEvents k).getLast? = some .unlock)
    ∧ ((SetVideoDetailEvents k).head? = some .lock ∧ (SetVideoDetailEvents k).getLast? = some .unlock) := by
  simp [MemoryCache.GetVideo, MemoryCache.SetVideo, MemoryCache.GetChannel, MemoryCache.SetChannel,
    MemoryCache.GetPlaylist, MemoryCache.SetPlaylist, MemoryCache.GetVideoDetail,
    MemoryCache.SetVideoDetail, GetVideoEvents, SetVideoEvents, GetChannelEvents, SetChannelEvents,
    GetPlaylistEvents, SetPlaylistEvents, GetVideoDetailEvents, SetVideoDetailEvents, hne]

/-- Witness for C10 at concrete keys and values. -/
theorem memoryCache_get_after_set_frame_and_lock_witness :
    ("j" ≠ "k")
    ∧ (((NewMemoryCache.SetVideo "k" (some ⟨[], ""⟩)).GetVideo "k" = some ⟨[], ""⟩)
    ∧ ((NewMemoryCache.SetChannel "k" (some ⟨[], ""⟩)).GetChannel "k" = some ⟨[], ""⟩)
    ∧ ((NewMemoryCache.SetPlaylist "k" (some ⟨[], ""⟩)).GetPlaylist "k" = some ⟨[], ""⟩)
    ∧ ((NewMemoryCache.SetVideoDetail "k" (some ⟨[], ""⟩)).GetVideoDetail "k" = some ⟨[], ""⟩)
    ∧ ((NewMemoryCache.SetVideo "k" (some ⟨[], ""⟩)).GetVideo "j" = NewMemoryCache.GetVideo "j")
    ∧ ((NewMemoryCache.SetChannel "k" (some ⟨[], ""⟩)).GetChannel "j" = NewMemoryCache.GetChannel "j")
    ∧ ((NewMemoryCache.SetPlaylist "k" (some ⟨[], ""⟩)).GetPlaylist "j" = NewMemoryCache.GetPlaylist "j")
    ∧ ((NewMemoryCache.SetVideoDetail "k" (some ⟨[], ""⟩)).GetVideoDetail "j" = NewMemoryCache.GetVideoDetail "j")
    ∧ ((NewMemoryCache.SetVideo "k" (some ⟨[], ""⟩)).GetChannel "m" = NewMemoryCache.GetChannel "m")
    ∧ ((NewMemoryCache.SetVideo "k" (some ⟨[], ""⟩)).GetPlaylist "m" = NewMemoryCache.GetPlaylist "m")
    ∧ ((NewMemoryCache.SetVideo "k" (some ⟨[], ""⟩)).GetVideoDetail "m" = NewMemoryCache.GetVideoDetail "m")
    ∧ ((NewMemoryCache.SetChannel "k" (some ⟨[], ""⟩)).GetVideo "m" = NewMemoryCache.GetVideo "m")
    ∧ ((NewMemoryCache.SetChannel "k" (some ⟨[], ""⟩)).GetPlaylist "m" = NewMemoryCache.GetPlaylist "m")
    ∧ ((NewMemoryCache.SetChannel "k" (some ⟨[], ""⟩)).GetVideoDetail "m" = NewMemoryCache.GetVideoDetail "m")
    ∧ ((NewMemoryCache.SetPlaylist "k" (some ⟨[], ""⟩)).GetVideo "m" = NewMemoryCache.GetVideo "m")
    ∧ ((NewMemoryCache.SetPlaylist "k" (some ⟨[], ""⟩)).GetChannel "m" = NewMemoryCache.GetChannel "m")
    ∧ ((NewMemoryCache.SetPlaylist "k" (some ⟨[], ""⟩)).GetVideoDetail "m" = NewMemoryCache.GetVideoDetail "m")
    ∧ ((NewMemoryCache.SetVideoDetail "k" (some ⟨[], ""⟩)).GetVideo "m" = NewMemoryCache.GetVideo "m")
    ∧ ((NewMemoryCache.SetVideoDetail "k" (some ⟨[], ""⟩)).GetChannel "m" = NewMemoryCache.GetChannel "m")
    ∧ ((NewMemoryCache.SetVideoDetail "k" (some ⟨[], ""⟩)).GetPlaylist "m" = NewMemoryCache.GetPlaylist "m")
    ∧ ((GetVideoEvents "k").head? = some .lock ∧ (GetVideoEvents "k").getLast? = some .unlock)
    ∧ ((SetVideoEvents "k").head? = some .lock ∧ (SetVideoEvents "k").getLast? = some .unlock)
    ∧ ((GetChannelEvents "k").head? = some .lock ∧ (GetChannelEvents "k").getLast? = some .unlock)
    ∧ ((SetChannelEvents "k").head? = some .lock ∧ (SetChannelEvents "k").getLast? = some .unlock)
    ∧ ((GetPlaylistEvents "k").head? = some .lock ∧ (GetPlaylistEvents "k").getLast? = some .unlock)
    ∧ ((SetPlaylistEvents "k").head? = some .lock ∧ (SetPlaylistEvents "k").getLast? = some .unlock)
    ∧ ((GetVideoDetailEvents "k").head? = some .lock ∧ (GetVideoDetailEvents "k").getLast? = some .unlock)
    ∧ ((SetVideoDetailEvents "k").head? = some .lock ∧ (SetVideoDetailEvents "k").getLast? = some .unlock)) :=
  ⟨by decide,
    memoryCache_get_after_set_frame_and_lock NewMemoryCache "k" "j" "m" (by decide)
      (some ⟨[], ""⟩) (some ⟨[], ""⟩)⟩

/-! ## Claim C4 -/

/-- C4 as frozen fails for an identifier that itself contains a comma:
`batchIteration ["a,b"]` yields the single comma-joined chunk `"a,b"`,
and splitting that chunk on commas and concatenating gives
`["a", "b"]`, not the original list. -/
theorem batcher_comma_identifier_not_reconstructed :
    ((batchIteration ["a,b"]).map stringsSplitComma).flatten ≠ ["a,b"] := by decide

/-- C4 (amended): for every identifier list whose identifiers contain no
comma, the Batcher partitions it into consecutive chunks of at most 50
identifiers preserving order: splitting each comma-joined chunk and
concatenating reconstructs the original list exactly, the chunk count is
ceil(L/50), and the empty list yields zero chunks. -/
theorem batcher_partitions_into_chunks (l : List String) (h : ∀ s ∈ l, ',' ∉ s.data) :
    ((batchIteration l).map stringsSplitComma).flatten = l
    ∧ (batchIteration l).length = (l.length + 49) / 50
    ∧ (∀ chunkStr ∈ batchIteration l, (stringsSplitComma chunkStr).length ≤ 50)
    ∧ batchIteration ([] : List String) = [] := by
  refine ⟨?_, ?_, ?_, rfl⟩
  · rw [batchIteration_eq_map, List.map_map]
    have hpoint : ∀ c ∈ batchChunks l,
        (stringsSplitComma ∘ fun cnk => stringsJoin cnk ",") c = id c := by
      intro c hc
      exact stringsSplitComma_stringsJoin c (batchChunks_mem_ne_nil l c hc)
        (fun s hs => h s (batchChunks_mem_mem l c hc s hs))
    rw [List.map_congr_left hpoint, List.map_id]
    exact batchChunks_flatten l
  · rw [batchIteration_eq_map, List.length_map]
    exact batchChunks_length l
  · intro chunkStr hmem
    rw [batchIteration_eq_map] at hmem
    rcases List.mem_map.mp hmem with ⟨c, hc, rfl⟩
    rw [stringsSplitComma_stringsJoin c (batchChunks_mem_ne_nil l c hc)
      (fun s hs => h s (batchChunks_mem_mem l c hc s hs))]
    exact batchChunks_mem_length l c hc

/-- Witness for C4 (amended) at a concrete comma-free identifier list. -/
theorem batcher_partitions_into_chunks_witness :
    (∀ s ∈ ["v1", "v2"], ',' ∉ s.data)
    ∧ (((batchIteration ["v1", "v2"]).map stringsSplitComma).flatten = ["v1", "v2"]
    ∧ (batchIteration ["v1", "v2"]).length = ((["v1", "v2"] : List String).length + 49) / 50
    ∧ (∀ chunkStr ∈ batchIteration ["v1", "v2"], (stringsSplitComma chunkStr).length ≤ 50)
    ∧ batchIteration ([] : List String) = []) :=
  ⟨by decide, batcher_partitions_into_chunks ["v1", "v2"] (by decide)⟩

/-! ## Claim C7 -/

/-- C7: for every base item list and auxiliary index, the merge step of
`FindTags` overwrites the channel title, channel id and thumbnails of
each base item whose id is a key of the auxiliary index with the values
from the index (leaving every other field unchanged), and returns each
base item whose id is absent from the index unchanged. -/
theorem merge_overwrites_indexed_and_passes_others (items : List Video)
    (vidIds : String → Option VidSnippetInfo) (item : Video) (_hmem : item ∈ items) :
    (∀ si, vidIds item.id = some si →
        (mergeSnippetInfo vidIds item).snippet.channelTitle = si.channelTitle
        ∧ (mergeSnippetInfo vidIds item).snippet.channelId = si.channelId
        ∧ (mergeSnippetInfo vidIds item).snippet.thumbnails = si.thumbnails
        ∧ (mergeSnippetInfo vidIds item).id = item.id
        ∧ (mergeSnippetInfo vidIds item).statistics = item.statistics
        ∧ (mergeSnippetInfo vidIds item).snippet.publishedAt = item.snippet.publishedAt
        ∧ (mergeSnippetInfo vidIds item).snippet.title = item.snippet.title
        ∧ (mergeSnippetInfo vidIds item).snippet.description = item.snippet.description
        ∧ (mergeSnippetInfo vidIds item).snippet.tags = item.snippet.tags
        ∧ (mergeSnippetInfo vidIds item).snippet.formattedTags = item.snippet.formattedTags)
    ∧ (vidIds item.id = none → mergeSnippetInfo vidIds item = item) := by
  constructor
  · intro si hsi
    simp [mergeSnippetInfo, hsi]
  · intro hnone
    simp [mergeSnippetInfo, hnone]

/-- Witness for C7 at a concrete two-item list and one-entry index. -/
theorem merge_overwrites_indexed_and_passes_others_witness :
    (({ (default : Video) with id := "a" } : Video) ∈
        [({ (default : Video) with id := "a" } : Video), { (default : Video) with id := "b" }])
    ∧ ((∀ si, (fun k => if k = "a" then some (⟨"ct", "ci", default⟩ : VidSnippetInfo) else none)
          ({ (default : Video) with id := "a" } : Video).id = some si →
        (mergeSnippetInfo (fun k => if k = "a" then some ⟨"ct", "ci", default⟩ else none)
            { (default : Video) with id := "a" }).snippet.channelTitle = si.channelTitle
        ∧ (mergeSnippetInfo (fun k => if k = "a" then some ⟨"ct", "ci", default⟩ else none)
            { (default : Video) with id := "a" }).snippet.channelId = si.channelId
        ∧ (mergeSnippetInfo (fun k => if k = "a" then some ⟨"ct", "ci", default⟩ else none)
            { (default : Video) with id := "a" }).snippet.thumbnails = si.thumbnails
        ∧ (mergeSnippetInfo (fun k => if k = "a" then some ⟨"ct", "ci", default⟩ else none)
            { (default : Video) with id := "a" }).id = ({ (default : Video) with id := "a" } : Video).id
        ∧ (mergeSnippetInfo (fun k => if k = "a" then some ⟨"ct", "ci", default⟩ else none)
            { (default : Video) with id := "a" }).statistics = ({ (default : Video) with id := "a" } : Video).statistics
        ∧ (mergeSnippetInfo (fun k => if k = "a" then some ⟨"ct", "ci", default⟩ else none)
            { (default : Video) with id := "a" }).snippet.publishedAt = ({ (default : Video) with id := "a" } : Video).snippet.publishedAt
        ∧ (mergeSnippetInfo (fun k => if k = "a" then some ⟨"ct", "ci", default⟩ else none)
            { (default : Video) with id := "a" }).snippet.title = ({ (default : Video) with id := "a" } : Video).snippet.title
        ∧ (mergeSnippetInfo (fun k => if k = "a" then some ⟨"ct", "ci", default⟩ else none)
            { (default : Video) with id := "a" }).snippet.description = ({ (default : Video) with id := "a" } : Video).snippet.description
        ∧ (mergeSnippetInfo (fun k => if k = "a" then some ⟨"ct", "ci", default⟩ else none)
            { (default : Video) with id := "a" }).snippet.tags = ({ (default : Video) with id := "a" } : Video).snippet.tags
        ∧ (mergeSnippetInfo (fun k => if k = "a" then some ⟨"ct", "ci", default⟩ else none)
            { (default : Video) with id := "a" }).snippet.formattedTags = ({ (default : Video) with id := "a" } : Video).snippet.formattedTags)
    ∧ ((fun k => if k = "a" then some (⟨"ct", "ci", default⟩ : VidSnippetInfo) else none)
          ({ (default : Video) with id := "a" } : Video).id = none →
        mergeSnippetInfo (fun k => if k = "a" then some ⟨"ct", "ci", default⟩ else none)
          { (default : Video) with id := "a" } = { (default : Video) with id := "a" })) :=
  ⟨by decide,
    merge_overwrites_indexed_and_passes_others
      [{ (default : Video) with id := "a" }, { (default : Video) with id := "b" }]
      (fun k => if k = "a" then some ⟨"ct", "ci", default⟩ else none)
      { (default : Video) with id := "a" } (by decide)⟩

/-! ## Claim C8 -/

/-- C8: when every item's view-count string parses, the filter succeeds
and retains exactly the items whose parsed view count strictly exceeds
`MinViews = 1000`, in their original relative order (each retained item
passing through the auxiliary-index merge). -/
theorem filter_keeps_strictly_above_minviews (vidIds : String → Option VidSnippetInfo)
    (items : List Video)
    (h : ∀ item ∈ items, (atoi item.statistics.viewCount).isOk = true) :
    MinViews = 1000
    ∧ filterAndMerge vidIds items =
        .ok ((items.filter fun item =>
          match atoi item.statistics.viewCount with
          | .ok views => decide (views > MinViews)
          | .error _ => false).map (mergeSnippetInfo vidIds)) := by
  refine ⟨rfl, ?_⟩
  induction items with
  | nil => simp [filterAndMerge]
  | cons item rest ih =>
    have hitem := h item (by simp)
    have hrest : ∀ it ∈ rest, (atoi it.statistics.viewCount).isOk = true :=
      fun it hit => h it (List.mem_cons_of_mem _ hit)
    have hvc : ¬ (item.statistics.viewCount = "") := by
      intro hvc
      rw [hvc] at hitem
      exact absurd hitem (by decide)
    rcases hA : atoi item.statistics.viewCount with e | views
    · rw [hA] at hitem
      simp [Except.isOk, Except.toBool] at hitem
    · by_cases hv : views > MinViews
      · simp only [filterAndMerge, if_neg hvc, hA, if_pos hv, ih hrest]
        simp [List.filter_cons, hA, hv]
      · simp only [filterAndMerge, if_neg hvc, hA, if_neg hv, ih hrest]
        simp [List.filter_cons, hA, hv]

/-- Witness for C8 at the spec's example: counts 500, 1500, 2000 with an
empty auxiliary index keep exactly the 1500 and 2000 items in order. -/
theorem filter_keeps_strictly_above_minviews_witness :
    (∀ item ∈ [({ (default : Video) with id := "x5", statistics := { (default : VideoStatistics) with viewCount := "500" } } : Video),
        { (default : Video) with id := "x15", statistics := { (default : VideoStatistics) with viewCount := "1500" } },
        { (default : Video) with id := "x20", statistics := { (default : VideoStatistics) with viewCount := "2000" } }],
      (atoi item.statistics.viewCount).isOk = true)
    ∧ (MinViews = 1000
    ∧ filterAndMerge (fun _ => none)
        [({ (default : Video) with id := "x5", statistics := { (default : VideoStatistics) with viewCount := "500" } } : Video),
          { (default : Video) with id := "x15", statistics := { (default : VideoStatistics) with viewCount := "1500" } },
          { (default : Video) with id := "x20", statistics := { (default : VideoStatistics) with viewCount := "2000" } }] =
      .ok (([({ (default : Video) with id := "x5", statistics := { (default : VideoStatistics) with viewCount := "500" } } : Video),
          { (default : Video) with id := "x15", statistics := { (default : VideoStatistics) with viewCount := "1500" } },
          { (default : Video) with id := "x20", statistics := { (default : VideoStatistics) with viewCount := "2000" } }].filter fun item =>
            match atoi item.statistics.viewCount with
            | .ok views => decide (views > MinViews)
            | .error _ => false).map (mergeSnippetInfo (fun _ => none)))) :=
  ⟨by decide,
    filter_keeps_strictly_above_minviews (fun _ => none)
      [{ (default : Video) with id := "x5", statistics := { (default : VideoStatistics) with viewCount := "500" } },
        { (default : Video) with id := "x15", statistics := { (default : VideoStatistics) with viewCount := "1500" } },
        { (default : Video) with id := "x20", statistics := { (default : VideoStatistics) with viewCount := "2000" } }]
      (by decide)⟩

/-! ## Claim C2 -/

/-- C2 as frozen fails for the empty view-count string: an item whose
view count is `""` is silently skipped by the filter guard
`if item.Statistics.ViewCount != ""`, and the enclosing search-and-tag
operation succeeds (returned error is `none`) with that item dropped
from the result, rather than failing. -/
theorem search_and_tag_skips_empty_viewcount :
    (({ (default : Video) with id := "a" } : Video).statistics.viewCount = "")
    ∧ (FindTags (fun _ _ => .ok ⟨[{ (default : TagSearchItem) with videoId := "a" }], ""⟩)
        (fun _ _ => .ok ⟨[{ (default : Video) with id := "a" }], "t"⟩)
        NewMemoryCache "q" 1).err = none
    ∧ (FindTags (fun _ _ => .ok ⟨[{ (default : TagSearchItem) with videoId := "a" }], ""⟩)
        (fun _ _ => .ok ⟨[{ (default : Video) with id := "a" }], "t"⟩)
        NewMemoryCache "q" 1).result = some ⟨[], ""⟩ := by decide

/-- C2 (amended): an item with a NON-EMPTY view-count string that does
not parse as an integer fails the entire filter call, and `FindTags`
returns that error with a nil result; an item with an EMPTY view-count
string is silently skipped (no error). -/
theorem filter_errors_on_unparsable_nonempty_viewcount
    (vidIds : String → Option VidSnippetInfo) (pre post : List Video) (bad : Video)
    (hne : bad.statistics.viewCount ≠ "")
    (hbad : (atoi bad.statistics.viewCount).isOk = false) :
    (∃ e, filterAndMerge vidIds (pre ++ bad :: post) = .error e)
    ∧ (∀ (item : Video) (rest : List Video), item.statistics.viewCount = "" →
        filterAndMerge vidIds (item :: rest) = filterAndMerge vidIds rest)
    ∧ (∀ (sf : String → String → Except String TagSearchResults)
        (vf : String → String → Except String VideoResults)
        (yt : MemoryCache) (input : String) (numPages : Int) (videos : List String)
        (vidIds2 : String → Option VidSnippetInfo) (e : String),
        yt.GetVideo input = none →
        (findTagsSearchLoop sf (replaceSpaces input) numPages.toNat 0 "" [] (fun _ => none)).1
          = .ok (videos, vidIds2) →
        (GetVideos vf yt videos).err = none →
        filterAndMerge vidIds2 (GetVideos vf yt videos).result.items = .error e →
        (FindTags sf vf yt input numPages).err = some e
        ∧ (FindTags sf vf yt input numPages).result = none) := by
  refine ⟨?_, ?_, ?_⟩
  · induction pre with
    | nil =>
      rcases hA : atoi bad.statistics.viewCount with e | v
      · exact ⟨e, by simp only [List.nil_append, filterAndMerge, if_neg hne, hA]⟩
      · rw [hA] at hbad
        simp [Except.isOk, Except.toBool] at hbad
    | cons p pre ih =>
      rcases ih with ⟨e, he⟩
      by_cases hp : p.statistics.viewCount = ""
      · exact ⟨e, by simp only [List.cons_append, filterAndMerge, if_pos hp]; exact he⟩
      · rcases hA : atoi p.statistics.viewCount with e2 | v
        · exact ⟨e2, by simp only [List.cons_append, filterAndMerge, if_neg hp, hA]⟩
        · by_cases hv : v > MinViews
          · exact ⟨e, by simp only [List.cons_append, filterAndMerge, if_neg hp, hA, if_pos hv,
              List.append_eq, he]⟩
          · exact ⟨e, by simp only [List.cons_append, filterAndMerge, if_neg hp, hA, if_neg hv]; exact he⟩
  · intro item rest h
    simp only [filterAndMerge, if_pos h]
  · intro sf vf yt input numPages videos vidIds2 e h1 h2 h3 h4
    constructor
    · simp only [FindTags, h1, h2, h3, h4]
    · simp only [FindTags, h1, h2, h3, h4]

/-- Witness for C2 (amended): an item with view count "abc" at the head
of the list makes the filter error. -/
theorem filter_errors_on_unparsable_nonempty_viewcount_witness :
    (({ (default : Video) with statistics := { (default : VideoStatistics) with viewCount := "abc" } } : Video).statistics.viewCount ≠ "")
    ∧ ((atoi ({ (default : Video) with statistics := { (default : VideoStatistics) with viewCount := "abc" } } : Video).statistics.viewCount).isOk = false)
    ∧ ((∃ e, filterAndMerge (fun _ => none)
        ([] ++ ({ (default : Video) with statistics := { (default : VideoStatistics) with viewCount := "abc" } } : Video) :: []) = .error e)
    ∧ (∀ (item : Video) (rest : List Video), item.statistics.viewCount = "" →
        filterAndMerge (fun _ => none) (item :: rest) = filterAndMerge (fun _ => none) rest)
    ∧ (∀ (sf : String → String → Except String TagSearchResults)
        (vf : String → String → Except String VideoResults)
        (yt : MemoryCache) (input : String) (numPages : Int) (videos : List String)
        (vidIds2 : String → Option VidSnippetInfo) (e : String),
        yt.GetVideo input = none →
        (findTagsSearchLoop sf (replaceSpaces input) numPages.toNat 0 "" [] (fun _ => none)).1
          = .ok (videos, vidIds2) →
        (GetVideos vf yt videos).err = none →
        filterAndMerge vidIds2 (GetVideos vf yt videos).result.items = .error e →
        (FindTags sf vf yt input numPages).err = some e
        ∧ (FindTags sf vf yt input numPages).result = none)) :=
  ⟨by decide, by decide,
    filter_errors_on_unparsable_nonempty_viewcount (fun _ => none) [] []
      { (default : Video) with statistics := { (default : VideoStatistics) with viewCount := "abc" } }
      (by decide) (by decide)⟩

/-! ## Cross-partition frame lemmas (definitional) -/

theorem getPlaylist_setVideoDetail (c : MemoryCache) (k k2 : String) (v : Option VideoResults) :
    (c.SetVideoDetail k v).GetPlaylist k2 = c.GetPlaylist k2 := rfl

theorem getVideo_setVideoDetail (c : MemoryCache) (k k2 : String) (v : Option VideoResults) :
    (c.SetVideoDetail k v).GetVideo k2 = c.GetVideo k2 := rfl

theorem getChannel_setVideoDetail (c : MemoryCache) (k k2 : String) (v : Option VideoResults) :
    (c.SetVideoDetail k v).GetChannel k2 = c.GetChannel k2 := rfl

theorem getVideo_setPlaylist (c : MemoryCache) (k k2 : String) (v : Option VideoResults) :
    (c.SetPlaylist k v).GetVideo k2 = c.GetVideo k2 := rfl

theorem getChannel_setPlaylist (c : MemoryCache) (k k2 : String) (v : Option VideoResults) :
    (c.SetPlaylist k v).GetChannel k2 = c.GetChannel k2 := rfl

/-! ## Path characterization lemmas for the operations -/

theorem GetVideos_hit (fetch : String → String → Except String VideoResults) (yt : MemoryCache)
    (videoIds : List String) (v : VideoResults)
    (h : yt.GetVideoDetail (stringsJoin videoIds ",") = some v) :
    GetVideos fetch yt videoIds = ⟨v, none, yt, 0⟩ := by
  simp only [GetVideos, h]

theorem GetVideos_error (fetch : String → String → Except String VideoResults) (yt : MemoryCache)
    (videoIds : List String) (e : String)
    (h1 : yt.GetVideoDetail (stringsJoin videoIds ",") = none)
    (h2 : (getVideosBatches fetch (((batchIteration videoIds).length + 9) / 10)
      (batchIteration videoIds) []).2.1 = some e) :
    GetVideos fetch yt videoIds =
      ⟨⟨(getVideosBatches fetch (((batchIteration videoIds).length + 9) / 10)
          (batchIteration videoIds) []).1, ""⟩, some e, yt,
        (getVideosBatches fetch (((batchIteration videoIds).length + 9) / 10)
          (batchIteration videoIds) []).2.2⟩ := by
  simp only [GetVideos, h1, h2]

theorem GetVideos_success (fetch : String → String → Except String VideoResults) (yt : MemoryCache)
    (videoIds : List String)
    (h1 : yt.GetVideoDetail (stringsJoin videoIds ",") = none)
    (h2 : (getVideosBatches fetch (((batchIteration videoIds).length + 9) / 10)
      (batchIteration videoIds) []).2.1 = none) :
    GetVideos fetch yt videoIds =
      ⟨⟨(getVideosBatches fetch (((batchIteration videoIds).length + 9) / 10)
          (batchIteration videoIds) []).1, ""⟩, none,
        yt.SetVideoDetail (stringsJoin videoIds ",")
          (some ⟨(getVideosBatches fetch (((batchIteration videoIds).length + 9) / 10)
            (batchIteration videoIds) []).1, ""⟩),
        (getVideosBatches fetch (((batchIteration videoIds).length + 9) / 10)
          (batchIteration videoIds) []).2.2⟩ := by
  simp only [GetVideos, h1, h2]

/-- `GetVideos` leaves the playlist partition untouched on every path. -/
theorem GetVideos_playlist_frame (fetch : String → String → Except String VideoResults)
    (yt : MemoryCache) (videoIds : List String) (k : String) :
    (GetVideos fetch yt videoIds).cache.GetPlaylist k = yt.GetPlaylist k := by
  cases hd : yt.GetVideoDetail (stringsJoin videoIds ",") with
  | some v => rw [GetVideos_hit fetch yt videoIds v hd]
  | none =>
    cases hb : (getVideosBatches fetch (((batchIteration videoIds).length + 9) / 10)
        (batchIteration videoIds) []).2.1 with
    | some e => rw [GetVideos_error fetch yt videoIds e hd hb]
    | none => rw [GetVideos_success fetch yt videoIds hd hb]; exact getPlaylist_setVideoDetail ..

/-- `GetVideos` leaves the video (search) partition untouched on every path. -/
theorem GetVideos_video_frame (fetch : String → String → Except String VideoResults)
    (yt : MemoryCache) (videoIds : List String) (k : String) :
    (GetVideos fetch yt videoIds).cache.GetVideo k = yt.GetVideo k := by
  cases hd : yt.GetVideoDetail (stringsJoin videoIds ",") with
  | some v => rw [GetVideos_hit fetch yt videoIds v hd]
  | none =>
    cases hb : (getVideosBatches fetch (((batchIteration videoIds).length + 9) / 10)
        (batchIteration videoIds) []).2.1 with
    | some e => rw [GetVideos_error fetch yt videoIds e hd hb]
    | none => rw [GetVideos_success fetch yt videoIds hd hb]; exact getVideo_setVideoDetail ..

/-- `GetVideos` leaves the channel partition untouched on every path. -/
theorem GetVideos_channel_frame (fetch : String → String → Except String VideoResults)
    (yt : MemoryCache) (videoIds : List String) (k : String) :
    (GetVideos fetch yt videoIds).cache.GetChannel k = yt.GetChannel k := by
  cases hd : yt.GetVideoDetail (stringsJoin videoIds ",") with
  | some v => rw [GetVideos_hit fetch yt videoIds v hd]
  | none =>
    cases hb : (getVideosBatches fetch (((batchIteration videoIds).length + 9) / 10)
        (batchIteration videoIds) []).2.1 with
    | some e => rw [GetVideos_error fetch yt videoIds e hd hb]
    | none => rw [GetVideos_success fetch yt videoIds hd hb]; exact getChannel_setVideoDetail ..

theorem FindTags_hit (sf : String → String → Except String TagSearchResults)
    (vf : String → String → Except String VideoResults) (yt : MemoryCache)
    (input : String) (numPages : Int) (v : VideoResults) (h : yt.GetVideo input = some v) :
    FindTags sf vf yt input numPages = ⟨some v, none, yt, 0⟩ := by
  simp only [FindTags, h]

theorem FindTags_search_error (sf : String → String → Except String TagSearchResults)
    (vf : String → String → Except String VideoResults) (yt : MemoryCache)
    (input : String) (numPages : Int) (e : String)
    (h1 : yt.GetVideo input = none)
    (h2 : (findTagsSearchLoop sf (replaceSpaces input) numPages.toNat 0 "" [] (fun _ => none)).1
      = .error e) :
    FindTags sf vf yt input numPages =
      ⟨none, some e, yt,
        (findTagsSearchLoop sf (replaceSpaces input) numPages.toNat 0 "" [] (fun _ => none)).2⟩ := by
  simp only [FindTags, h1, h2]

theorem FindTags_getvideos_error (sf : String → String → Except String TagSearchResults)
    (vf : String → String → Except String VideoResults) (yt : MemoryCache)
    (input : String) (numPages : Int) (videos : List String)
    (vidIds : String → Option VidSnippetInfo) (e : String)
    (h1 : yt.GetVideo input = none)
    (h2 : (findTagsSearchLoop sf (replaceSpaces input) numPages.toNat 0 "" [] (fun _ => none)).1
      = .ok (videos, vidIds))
    (h3 : (GetVideos vf yt videos).err = some e) :
    FindTags sf vf yt input numPages =
      ⟨none, some e, (GetVideos vf yt videos).cache,
        (findTagsSearchLoop sf (replaceSpaces input) numPages.toNat 0 "" [] (fun _ => none)).2
          + (GetVideos vf yt videos).calls⟩ := by
  simp only [FindTags, h1, h2, h3]

theorem FindTags_filter_error (sf : String → String → Except String TagSearchResults)
    (vf : String → String → Except String VideoResults) (yt : MemoryCache)
    (input : String) (numPages : Int) (videos : List String)
    (vidIds : String → Option VidSnippetInfo) (e : String)
    (h1 : yt.GetVideo input = none)
    (h2 : (findTagsSearchLoop sf (replaceSpaces input) numPages.toNat 0 "" [] (fun _ => none)).1
      = .ok (videos, vidIds))
    (h3 : (GetVideos vf yt videos).err = none)
    (h4 : filterAndMerge vidIds (GetVideos vf yt videos).result.items = .error e) :
    FindTags sf vf yt input numPages =
      ⟨none, some e, (GetVideos vf yt videos).cache,
        (findTagsSearchLoop sf (replaceSpaces input) numPages.toNat 0 "" [] (fun _ => none)).2
          + (GetVideos vf yt videos).calls⟩ := by
  simp only [FindTags, h1, h2, h3, h4]

theorem FindTags_success (sf : String → String → Except String TagSearchResults)
    (vf : String → String → Except String VideoResults) (yt : MemoryCache)
    (input : String) (numPages : Int) (videos : List String)
    (vidIds : String → Option VidSnippetInfo) (filteredItems : List Video)
    (h1 : yt.GetVideo input = none)
    (h2 : (findTagsSearchLoop sf (replaceSpaces input) numPages.toNat 0 "" [] (fun _ => none)).1
      = .ok (videos, vidIds))
    (h3 : (GetVideos vf yt videos).err = none)
    (h4 : filterAndMerge vidIds (GetVideos vf yt videos).result.items = .ok filteredItems) :
    FindTags sf vf yt input numPages =
      ⟨some ⟨filteredItems, (GetVideos vf yt videos).result.nextPageToken⟩, none,
        ((GetVideos vf yt videos).cache).SetVideo input
          (some ⟨filteredItems, (GetVideos vf yt videos).result.nextPageToken⟩),
        (findTagsSearchLoop sf (replaceSpaces input) numPages.toNat 0 "" [] (fun _ => none)).2
          + (GetVideos vf yt videos).calls⟩ := by
  simp only [FindTags, h1, h2, h3, h4]

theorem GetChannelInfo_hit (cf : String → Except String ChannelInfo) (yt : MemoryCache)
    (channelId : String) (v : ChannelInfo) (h : yt.GetChannel channelId = some v) :
    GetChannelInfo cf yt channelId = ⟨some v, none, yt, 0⟩ := by
  simp only [GetChannelInfo, h]

theorem GetChannelInfo_fetch_error (cf : String → Except String ChannelInfo) (yt : MemoryCache)
    (channelId : String) (e : String) (h1 : yt.GetChannel channelId = none)
    (h2 : cf channelId = .error e) :
    GetChannelInfo cf yt channelId = ⟨none, some "channel info not found", yt, 1⟩ := by
  simp only [GetChannelInfo, h1, h2]

theorem GetChannelInfo_empty (cf : String → Except String ChannelInfo) (yt : MemoryCache)
    (channelId : String) (cInfo : ChannelInfo) (h1 : yt.GetChannel channelId = none)
    (h2 : cf channelId = .ok cInfo) (h3 : cInfo.items.length = 0) :
    GetChannelInfo cf yt channelId = ⟨none, some "no item available in cInfo", yt, 1⟩ := by
  simp only [GetChannelInfo, h1, h2, h3, if_true]

theorem GetChannelInfo_success (cf : String → Except String ChannelInfo) (yt : MemoryCache)
    (channelId : String) (cInfo : ChannelInfo) (h1 : yt.GetChannel channelId = none)
    (h2 : cf channelId = .ok cInfo) (h3 : ¬ (cInfo.items.length = 0)) :
    GetChannelInfo cf yt channelId =
      ⟨some cInfo, none, yt.SetChannel channelId (some cInfo), 1⟩ := by
  simp only [GetChannelInfo, h1, h2, if_neg h3]

theorem getChannelPlaylist_fetch_error
    (pf : String → String → Except String ChannelPlaylistVideoResults)
    (vf : String → String → Except String VideoResults) (yt : MemoryCache)
    (playlistId : String) (numItems : Int) (e : String)
    (h : (fetchPlaylistVideosLoop pf playlistId (calculateNumPages numItems).toNat 0 "" []
      (fun _ => none)).1 = .error e) :
    getChannelPlaylist pf vf yt playlistId numItems =
      ⟨none, some e, yt,
        (fetchPlaylistVideosLoop pf playlistId (calculateNumPages numItems).toNat 0 "" []
          (fun _ => none)).2⟩ := by
  simp only [getChannelPlaylist, h]

theorem getChannelPlaylist_getvideos_error
    (pf : String → String → Except String ChannelPlaylistVideoResults)
    (vf : String → String → Except String VideoResults) (yt : MemoryCache)
    (playlistId : String) (numItems : Int) (videos : List String)
    (thumbnails : String → Option Thumbnails) (e : String)
    (h1 : (fetchPlaylistVideosLoop pf playlistId (calculateNumPages numItems).toNat 0 "" []
      (fun _ => none)).1 = .ok (videos, thumbnails))
    (h2 : (GetVideos vf yt videos).err = some e) :
    getChannelPlaylist pf vf yt playlistId numItems =
      ⟨none, some e, (GetVideos vf yt videos).cache,
        (fetchPlaylistVideosLoop pf playlistId (calculateNumPages numItems).toNat 0 "" []
          (fun _ => none)).2 + (GetVideos vf yt videos).calls⟩ := by
  simp only [getChannelPlaylist, h1, h2]

theorem getChannelPlaylist_success
    (pf : String → String → Except String ChannelPlaylistVideoResults)
    (vf : String → String → Except String VideoResults) (yt : MemoryCache)
    (playlistId : String) (numItems : Int) (videos : List String)
    (thumbnails : String → Option Thumbnails)
    (h1 : (fetchPlaylistVideosLoop pf playlistId (calculateNumPages numItems).toNat 0 "" []
      (fun _ => none)).1 = .ok (videos, thumbnails))
    (h2 : (GetVideos vf yt videos).err = none) :
    getChannelPlaylist pf vf yt playlistId numItems =
      ⟨some (processVideoItems (GetVideos vf yt videos).result thumbnails), none,
        (GetVideos vf yt videos).cache,
        (fetchPlaylistVideosLoop pf playlistId (calculateNumPages numItems).toNat 0 "" []
          (fun _ => none)).2 + (GetVideos vf yt videos).calls⟩ := by
  simp only [getChannelPlaylist, h1, h2]

/-- The lower-case `getChannelPlaylist` leaves the playlist partition
untouched on every path (only `GetVideos` writes, and only to the
video-detail partition). -/
theorem getChannelPlaylist_playlist_frame
    (pf : String → String → Except String ChannelPlaylistVideoResults)
    (vf : String → String → Except String VideoResults) (yt : MemoryCache)
    (playlistId : String) (numItems : Int) (k : String) :
    (getChannelPlaylist pf vf yt playlistId numItems).cache.GetPlaylist k = yt.GetPlaylist k := by
  cases hf : (fetchPlaylistVideosLoop pf playlistId (calculateNumPages numItems).toNat 0 "" []
      (fun _ => none)).1 with
  | error e => rw [getChannelPlaylist_fetch_error pf vf yt playlistId numItems e hf]
  | ok p =>
    cases hg : (GetVideos vf yt p.1).err with
    | some e =>
      rw [getChannelPlaylist_getvideos_error pf vf yt playlistId numItems p.1 p.2 e (by rw [hf]) hg]
      exact GetVideos_playlist_frame vf yt p.1 k
    | none =>
      rw [getChannelPlaylist_success pf vf yt playlistId numItems p.1 p.2 (by rw [hf]) hg]
      exact GetVideos_playlist_frame vf yt p.1 k

theorem getChannelPlaylist_video_frame
    (pf : String → String → Except String ChannelPlaylistVideoResults)
    (vf : String → String → Except String VideoResults) (yt : MemoryCache)
    (playlistId : String) (numItems : Int) (k : String) :
    (getChannelPlaylist pf vf yt playlistId numItems).cache.GetVideo k = yt.GetVideo k := by
  cases hf : (fetchPlaylistVideosLoop pf playlistId (calculateNumPages numItems).toNat 0 "" []
      (fun _ => none)).1 with
  | error e => rw [getChannelPlaylist_fetch_error pf vf yt playlistId numItems e hf]
  | ok p =>
    cases hg : (GetVideos vf yt p.1).err with
    | some e =>
      rw [getChannelPlaylist_getvideos_error pf vf yt playlistId numItems p.1 p.2 e (by rw [hf]) hg]
      exact GetVideos_video_frame vf yt p.1 k
    | none =>
      rw [getChannelPlaylist_success pf vf yt playlistId numItems p.1 p.2 (by rw [hf]) hg]
      exact GetVideos_video_frame vf yt p.1 k

theorem getChannelPlaylist_channel_frame
    (pf : String → String → Except String ChannelPlaylistVideoResults)
    (vf : String → String → Except String VideoResults) (yt : MemoryCache)
    (playlistId : String) (numItems : Int) (k : String) :
    (getChannelPlaylist pf vf yt playlistId numItems).cache.GetChannel k = yt.GetChannel k := by
  cases hf : (fetchPlaylistVideosLoop pf playlistId (calculateNumPages numItems).toNat 0 "" []
      (fun _ => none)).1 with
  | error e => rw [getChannelPlaylist_fetch_error pf vf yt playlistId numItems e hf]
  | ok p =>
    cases hg : (GetVideos vf yt p.1).err with
    | some e =>
      rw [getChannelPlaylist_getvideos_error pf vf yt playlistId numItems p.1 p.2 e (by rw [hf]) hg]
      exact GetVideos_channel_frame vf yt p.1 k
    | none =>
      rw [getChannelPlaylist_success pf vf yt playlistId numItems p.1 p.2 (by rw [hf]) hg]
      exact GetVideos_channel_frame vf yt p.1 k

theorem GetChannelPlaylist_hit
    (pf : String → String → Except String ChannelPlaylistVideoResults)
    (vf : String → String → Except String VideoResults) (yt : MemoryCache)
    (item : Item) (vidCount : Int) (v : VideoResults)
    (h : yt.GetPlaylist (item.id ++ "-" ++ toString vidCount) = some v) :
    GetChannelPlaylist pf vf yt item vidCount = ⟨some v, none, yt, 0⟩ := by
  simp only [GetChannelPlaylist, h]

theorem GetChannelPlaylist_nil_contentDetails
    (pf : String → String → Except String ChannelPlaylistVideoResults)
    (vf : String → String → Except String VideoResults) (yt : MemoryCache)
    (item : Item) (vidCount : Int)
    (h1 : yt.GetPlaylist (item.id ++ "-" ++ toString vidCount) = none)
    (h2 : item.contentDetails = none) :
    GetChannelPlaylist pf vf yt item vidCount =
      ⟨none, some "contentDetails or RelatedPlaylists are nil",
        yt.SetPlaylist (item.id ++ "-" ++ toString vidCount) none, 0⟩ := by
  simp only [GetChannelPlaylist, h1, h2]

theorem GetChannelPlaylist_nil_relatedPlaylists
    (pf : String → String → Except String ChannelPlaylistVideoResults)
    (vf : String → String → Except String VideoResults) (yt : MemoryCache)
    (item : Item) (vidCount : Int) (cd : ItemContentDetails)
    (h1 : yt.GetPlaylist (item.id ++ "-" ++ toString vidCount) = none)
    (h2 : item.contentDetails = some cd) (h3 : cd.relatedPlaylists = none) :
    GetChannelPlaylist pf vf yt item vidCount =
      ⟨none, some "contentDetails or RelatedPlaylists are nil",
        yt.SetPlaylist (item.id ++ "-" ++ toString vidCount) none, 0⟩ := by
  simp only [GetChannelPlaylist, h1, h2, h3]

theorem GetChannelPlaylist_inner_error
    (pf : String → String → Except String ChannelPlaylistVideoResults)
    (vf : String → String → Except String VideoResults) (yt : MemoryCache)
    (item : Item) (vidCount : Int) (cd : ItemContentDetails) (rp : RelatedPlaylists) (e : String)
    (h1 : yt.GetPlaylist (item.id ++ "-" ++ toString vidCount) = none)
    (h2 : item.contentDetails = some cd) (h3 : cd.relatedPlaylists = some rp)
    (h4 : (getChannelPlaylist pf vf yt rp.uploads vidCount).err = some e) :
    GetChannelPlaylist pf vf yt item vidCount =
      ⟨none, some "internal server error",
        (getChannelPlaylist pf vf yt rp.uploads vidCount).cache,
        (getChannelPlaylist pf vf yt rp.uploads vidCount).calls⟩ := by
  simp only [GetChannelPlaylist, h1, h2, h3, h4]

theorem GetChannelPlaylist_inner_none
    (pf : String → String → Except String ChannelPlaylistVideoResults)
    (vf : String → String → Except String VideoResults) (yt : MemoryCache)
    (item : Item) (vidCount : Int) (cd : ItemContentDetails) (rp : RelatedPlaylists)
    (h1 : yt.GetPlaylist (item.id ++ "-" ++ toString vidCount) = none)
    (h2 : item.contentDetails = some cd) (h3 : cd.relatedPlaylists = some rp)
    (h4 : (getChannelPlaylist pf vf yt rp.uploads vidCount).err = none)
    (h5 : (getChannelPlaylist pf vf yt rp.uploads vidCount).result = none) :
    GetChannelPlaylist pf vf yt item vidCount =
      ⟨none, some "no results found",
        (getChannelPlaylist pf vf yt rp.uploads vidCount).cache,
        (getChannelPlaylist pf vf yt rp.uploads vidCount).calls⟩ := by
  simp only [GetChannelPlaylist, h1, h2, h3, h4, h5]

theorem GetChannelPlaylist_success
    (pf : String → String → Except String ChannelPlaylistVideoResults)
    (vf : String → String → Except String VideoResults) (yt : MemoryCache)
    (item : Item) (vidCount : Int) (cd : ItemContentDetails) (rp : RelatedPlaylists)
    (results : VideoResults)
    (h1 : yt.GetPlaylist (item.id ++ "-" ++ toString vidCount) = none)
    (h2 : item.contentDetails = some cd) (h3 : cd.relatedPlaylists = some rp)
    (h4 : (getChannelPlaylist pf vf yt rp.uploads vidCount).err = none)
    (h5 : (getChannelPlaylist pf vf yt rp.uploads vidCount).result = some results) :
    GetChannelPlaylist pf vf yt item vidCount =
      ⟨some results, none,
        ((getChannelPlaylist pf vf yt rp.uploads vidCount).cache).SetPlaylist
          (item.id ++ "-" ++ toString vidCount) (some results),
        (getChannelPlaylist pf vf yt rp.uploads vidCount).calls⟩ := by
  simp only [GetChannelPlaylist, h1, h2, h3, h4, h5]

/-- A non-empty id list yields a non-empty batch list. -/
theorem batchIteration_ne_nil (l : List String) (h : l ≠ []) : batchIteration l ≠ [] := by
  rw [batchIteration_eq_map]
  cases l with
  | nil => exact absurd rfl h
  | cons x rest => simp [batchChunks]

/-! ## Claim C1 -/

/-- C1 (evaluation of the code bug): with a single id `"a"` and an
upstream that answers the one page with one item and an empty
continuation token, `GetVideos` succeeds but returns NO items: the loop
assigns `nextPage = res.NextPageToken` and breaks before appending
`res.Items` when the token is empty (and its page bound is
`ceil(len(batches)/10)`, not "until no continuation token"), so the
final page of every batch is dropped. -/
theorem getVideos_drops_final_page_items :
    ((fun _ _ => (Except.ok (⟨[{ (default : Video) with id := "a" }], ""⟩ : VideoResults) :
        Except String VideoResults)) "a" ""
      = Except.ok (⟨[{ (default : Video) with id := "a" }], ""⟩ : VideoResults))
    ∧ (GetVideos (fun _ _ => .ok ⟨[{ (default : Video) with id := "a" }], ""⟩)
        NewMemoryCache ["a"]).err = none
    ∧ (GetVideos (fun _ _ => .ok ⟨[{ (default : Video) with id := "a" }], ""⟩)
        NewMemoryCache ["a"]).result.items = [] := by decide

/-! ## Claim C6 -/

/-- C6 as frozen fails: with 51 ids (two batches) where the first batch's
page succeeds (with a non-empty token, so its items are accumulated) and
the second batch's fetch errors, `GetVideos` returns the first batch's
accumulated items ALONGSIDE the error — the caller does receive a
partial ResultSet. -/
theorem getVideos_error_returns_partial_accumulation :
    (GetVideos
        (fun fSearch _ => if fSearch = "b" then (Except.error "boom" : Except String VideoResults)
          else .ok ⟨[{ (default : Video) with id := "a" }], "t"⟩)
        NewMemoryCache (List.replicate 50 "a" ++ ["b"])).err = some "boom"
    ∧ (GetVideos
        (fun fSearch _ => if fSearch = "b" then (Except.error "boom" : Except String VideoResults)
          else .ok ⟨[{ (default : Video) with id := "a" }], "t"⟩)
        NewMemoryCache (List.replicate 50 "a" ++ ["b"])).result.items
      = [{ (default : Video) with id := "a" }]
    ∧ (GetVideos
        (fun fSearch _ => if fSearch = "b" then (Except.error "boom" : Except String VideoResults)
          else .ok ⟨[{ (default : Video) with id := "a" }], "t"⟩)
        NewMemoryCache (List.replicate 50 "a" ++ ["b"])).calls = 2 := by decide

/-- C6 (amended): the first fetch error is propagated immediately (an
always-failing oracle is called exactly once and nothing is cached), and
`FindTags` returns a nil result alongside the error; but `GetVideos`
returns the partially accumulated items alongside the error rather than
discarding them. -/
theorem paginator_first_error_propagation :
    (∀ (fetch : String → String → Except String VideoResults) (yt : MemoryCache)
        (videoIds : List String) (e : String),
      (GetVideos fetch yt videoIds).err = some e → (GetVideos fetch yt videoIds).cache = yt)
    ∧ (∀ (fetch : String → String → Except String VideoResults) (yt : MemoryCache)
        (videoIds : List String) (e : String),
      yt.GetVideoDetail (stringsJoin videoIds ",") = none → videoIds ≠ [] →
      (∀ b p, fetch b p = .error e) →
      (GetVideos fetch yt videoIds).err = some e
      ∧ (GetVideos fetch yt videoIds).calls = 1
      ∧ (GetVideos fetch yt videoIds).result.items = [])
    ∧ (∀ (sf : String → String → Except String TagSearchResults)
        (vf : String → String → Except String VideoResults)
        (yt : MemoryCache) (input : String) (numPages : Int) (videos : List String)
        (vidIds2 : String → Option VidSnippetInfo) (e : String),
      yt.GetVideo input = none →
      (findTagsSearchLoop sf (replaceSpaces input) numPages.toNat 0 "" [] (fun _ => none)).1
        = .ok (videos, vidIds2) →
      (GetVideos vf yt videos).err = some e →
      (FindTags sf vf yt input numPages).err = some e
      ∧ (FindTags sf vf yt input numPages).result = none) := by
  refine ⟨?_, ?_, ?_⟩
  · intro fetch yt videoIds e h
    cases hd : yt.GetVideoDetail (stringsJoin videoIds ",") with
    | some v =>
      rw [GetVideos_hit fetch yt videoIds v hd] at h
      exact Option.noConfusion h
    | none =>
      cases hb : (getVideosBatches fetch (((batchIteration videoIds).length + 9) / 10)
          (batchIteration videoIds) []).2.1 with
      | some e2 => rw [GetVideos_error fetch yt videoIds e2 hd hb]
      | none =>
        rw [GetVideos_success fetch yt videoIds hd hb] at h
        exact Option.noConfusion h
  · intro fetch yt videoIds e h1 hne hfe
    have hbne := batchIteration_ne_nil videoIds hne
    cases hbi : batchIteration videoIds with
    | nil => exact absurd hbi hbne
    | cons b rest =>
      have hlen : (batchIteration videoIds).length = rest.length + 1 := by rw [hbi]; rfl
      obtain ⟨c, hcap⟩ : ∃ c, ((batchIteration videoIds).length + 9) / 10 = c + 1 :=
        ⟨((batchIteration videoIds).length + 9) / 10 - 1, by omega⟩
      have hloop : getVideosLoop fetch b (c + 1) 0 "" [] = ([], some e, 1) := by
        simp only [getVideosLoop, hfe]
      have hbatches : getVideosBatches fetch (c + 1) (batchIteration videoIds) []
          = ([], some e, 1) := by
        rw [hbi]
        simp only [getVideosBatches, hloop]
      have h2 : (getVideosBatches fetch (((batchIteration videoIds).length + 9) / 10)
          (batchIteration videoIds) []).2.1 = some e := by
        rw [hcap, hbatches]
      rw [GetVideos_error fetch yt videoIds e h1 h2]
      refine ⟨rfl, ?_, ?_⟩
      · show (getVideosBatches fetch (((batchIteration videoIds).length + 9) / 10)
          (batchIteration videoIds) []).2.2 = 1
        rw [hcap, hbatches]
      · show (getVideosBatches fetch (((batchIteration videoIds).length + 9) / 10)
          (batchIteration videoIds) []).1 = []
        rw [hcap, hbatches]
  · intro sf vf yt input numPages videos vidIds2 e h1 h2 h3
    constructor
    · rw [FindTags_getvideos_error sf vf yt input numPages videos vidIds2 e h1 h2 h3]
    · rw [FindTags_getvideos_error sf vf yt input numPages videos vidIds2 e h1 h2 h3]

/-- Witness for C6 (amended): an always-failing oracle on one id is
fetched exactly once and the error is returned with no cache write. -/
theorem paginator_first_error_propagation_witness :
    (NewMemoryCache.GetVideoDetail (stringsJoin ["a"] ",") = none)
    ∧ ((["a"] : List String) ≠ [])
    ∧ (∀ (b p : String),
        (fun (_ _ : String) => (Except.error "x" : Except String VideoResults)) b p
          = Except.error "x")
    ∧ ((GetVideos (fun _ _ => (Except.error "x" : Except String VideoResults))
          NewMemoryCache ["a"]).err = some "x"
      ∧ (GetVideos (fun _ _ => (Except.error "x" : Except String VideoResults))
          NewMemoryCache ["a"]).calls = 1
      ∧ (GetVideos (fun _ _ => (Except.error "x" : Except String VideoResults))
          NewMemoryCache ["a"]).result.items = []) :=
  ⟨by decide, by decide, fun _ _ => rfl,
    paginator_first_error_propagation.2.1 (fun _ _ => .error "x") NewMemoryCache ["a"] "x"
      (by decide) (by decide) (fun _ _ => rfl)⟩

/-! ## Claim C3 -/

/-- C3: after a first call of any of the four operations succeeds
(error is `none`), a second call with the identical cache key — even
with different oracles and, where applicable, a different page count or
a different item with the same id — returns exactly the value the first
call left in the cache, makes zero upstream calls, and leaves the cache
unchanged. -/
theorem cached_key_second_call_no_upstream :
    (∀ (sf sf2 : String → String → Except String TagSearchResults)
        (vf3 vf4 : String → String → Except String VideoResults)
        (yt : MemoryCache) (input : String) (numPages numPages2 : Int),
      (FindTags sf vf3 yt input numPages).err = none →
      FindTags sf2 vf4 (FindTags sf vf3 yt input numPages).cache input numPages2 =
        ⟨(FindTags sf vf3 yt input numPages).result, none,
          (FindTags sf vf3 yt input numPages).cache, 0⟩)
    ∧ (∀ (cf cf2 : String → Except String ChannelInfo) (yt : MemoryCache) (channelId : String),
      (GetChannelInfo cf yt channelId).err = none →
      GetChannelInfo cf2 (GetChannelInfo cf yt channelId).cache channelId =
        ⟨(GetChannelInfo cf yt channelId).result, none, (GetChannelInfo cf yt channelId).cache, 0⟩)
    ∧ (∀ (vf vf2 : String → String → Except String VideoResults) (yt : MemoryCache)
        (videoIds : List String),
      (GetVideos vf yt videoIds).err = none →
      GetVideos vf2 (GetVideos vf yt videoIds).cache videoIds =
        ⟨(GetVideos vf yt videoIds).result, none, (GetVideos vf yt videoIds).cache, 0⟩)
    ∧ (∀ (pf pf2 : String → String → Except String ChannelPlaylistVideoResults)
        (vf vf2 : String → String → Except String VideoResults)
        (yt : MemoryCache) (item item2 : Item) (vidCount : Int),
      item2.id = item.id →
      (GetChannelPlaylist pf vf yt item vidCount).err = none →
      GetChannelPlaylist pf2 vf2 (GetChannelPlaylist pf vf yt item vidCount).cache item2 vidCount =
        ⟨(GetChannelPlaylist pf vf yt item vidCount).result, none,
          (GetChannelPlaylist pf vf yt item vidCount).cache, 0⟩) := by
  refine ⟨?_, ?_, ?_, ?_⟩
  · intro sf sf2 vf3 vf4 yt input numPages numPages2 herr
    cases hv : yt.GetVideo input with
    | some v =>
      rw [FindTags_hit sf vf3 yt input numPages v hv]
      exact FindTags_hit sf2 vf4 yt input numPages2 v hv
    | none =>
      cases hs : (findTagsSearchLoop sf (replaceSpaces input) numPages.toNat 0 "" []
          (fun _ => none)).1 with
      | error e =>
        rw [FindTags_search_error sf vf3 yt input numPages e hv hs] at herr
        exact Option.noConfusion herr
      | ok p =>
        cases hg : (GetVideos vf3 yt p.1).err with
        | some e =>
          rw [FindTags_getvideos_error sf vf3 yt input numPages p.1 p.2 e hv hs hg] at herr
          exact Option.noConfusion herr
        | none =>
          cases hf : filterAndMerge p.2 (GetVideos vf3 yt p.1).result.items with
          | error e =>
            rw [FindTags_filter_error sf vf3 yt input numPages p.1 p.2 e hv hs hg hf] at herr
            exact Option.noConfusion herr
          | ok filteredItems =>
            rw [FindTags_success sf vf3 yt input numPages p.1 p.2 filteredItems hv hs hg hf]
            exact FindTags_hit sf2 vf4 _ input numPages2 _ (getVideo_setVideo_same ..)
  · intro cf cf2 yt channelId herr
    cases hc : yt.GetChannel channelId with
    | some v =>
      rw [GetChannelInfo_hit cf yt channelId v hc]
      exact GetChannelInfo_hit cf2 yt channelId v hc
    | none =>
      cases hf : cf channelId with
      | error e =>
        rw [GetChannelInfo_fetch_error cf yt channelId e hc hf] at herr
        exact Option.noConfusion herr
      | ok cInfo =>
        by_cases hlen : cInfo.items.length = 0
        · rw [GetChannelInfo_empty cf yt channelId cInfo hc hf hlen] at herr
          exact Option.noConfusion herr
        · rw [GetChannelInfo_success cf yt channelId cInfo hc hf hlen]
          exact GetChannelInfo_hit cf2 _ channelId cInfo (getChannel_setChannel_same ..)
  · intro vf vf2 yt videoIds herr
    cases hd : yt.GetVideoDetail (stringsJoin videoIds ",") with
    | some v =>
      rw [GetVideos_hit vf yt videoIds v hd]
      exact GetVideos_hit vf2 yt videoIds v hd
    | none =>
      cases hb : (getVideosBatches vf (((batchIteration videoIds).length + 9) / 10)
          (batchIteration videoIds) []).2.1 with
      | some e =>
        rw [GetVideos_error vf yt videoIds e hd hb] at herr
        exact Option.noConfusion herr
      | none =>
        rw [GetVideos_success vf yt videoIds hd hb]
        exact GetVideos_hit vf2 _ videoIds _ (getVideoDetail_setVideoDetail_same ..)
  · intro pf pf2 vf vf2 yt item item2 vidCount hid herr
    cases hd : yt.GetPlaylist (item.id ++ "-" ++ toString vidCount) with
    | some v =>
      rw [GetChannelPlaylist_hit pf vf yt item vidCount v hd]
      exact GetChannelPlaylist_hit pf2 vf2 yt item2 vidCount v (by rw [hid]; exact hd)
    | none =>
      cases hcd : item.contentDetails with
      | none =>
        rw [GetChannelPlaylist_nil_contentDetails pf vf yt item vidCount hd hcd] at herr
        exact Option.noConfusion herr
      | some cd =>
        cases hrp : cd.relatedPlaylists with
        | none =>
          rw [GetChannelPlaylist_nil_relatedPlaylists pf vf yt item vidCount cd hd hcd hrp] at herr
          exact Option.noConfusion herr
        | some rp =>
          cases hie : (getChannelPlaylist pf vf yt rp.uploads vidCount).err with
          | some e =>
            rw [GetChannelPlaylist_inner_error pf vf yt item vidCount cd rp e hd hcd hrp hie] at herr
            exact Option.noConfusion herr
          | none =>
            cases hres : (getChannelPlaylist pf vf yt rp.uploads vidCount).result with
            | none =>
              rw [GetChannelPlaylist_inner_none pf vf yt item vidCount cd rp hd hcd hrp hie hres] at herr
              exact Option.noConfusion herr
            | some results =>
              rw [GetChannelPlaylist_success pf vf yt item vidCount cd rp results hd hcd hrp hie hres]
              refine GetChannelPlaylist_hit pf2 vf2 _ item2 vidCount results ?_
              rw [hid]
              exact getPlaylist_setPlaylist_same ..

/-- Witness for C3: a successful `GetVideos` call populates the
video-detail partition; a second call with the same ids (and an oracle
that would fail if ever consulted) is answered from the cache with zero
upstream calls. -/
theorem cached_key_second_call_no_upstream_witness :
    ((GetVideos (fun _ _ => (Except.ok (⟨[], ""⟩ : VideoResults) : Except String VideoResults))
        NewMemoryCache ["a"]).err = none)
    ∧ (GetVideos (fun _ _ => (Except.error "never" : Except String VideoResults))
        (GetVideos (fun _ _ => (Except.ok (⟨[], ""⟩ : VideoResults) : Except String VideoResults))
          NewMemoryCache ["a"]).cache ["a"] =
      ⟨(GetVideos (fun _ _ => (Except.ok (⟨[], ""⟩ : VideoResults) : Except String VideoResults))
          NewMemoryCache ["a"]).result, none,
        (GetVideos (fun _ _ => (Except.ok (⟨[], ""⟩ : VideoResults) : Except String VideoResults))
          NewMemoryCache ["a"]).cache, 0⟩) :=
  ⟨by decide,
    cached_key_second_call_no_upstream.2.2.1 (fun _ _ => .ok ⟨[], ""⟩) (fun _ _ => .error "never")
      NewMemoryCache ["a"] (by decide)⟩

/-! ## Claim C5 -/

/-- C5 as frozen fails: for a channel item with id `"chan"` whose uploads
playlist id is `"upl"`, `GetChannelPlaylist` writes the result under
`"chan-3"` (the ITEM's id), not under `"upl-3"` (the uploads-playlist
id); and a pre-populated `"upl-3"` entry is ignored (the operation still
fetches) while a pre-populated `"chan-3"` entry is served with zero
fetches. -/
theorem channelPlaylist_key_uses_item_id_not_uploads_id :
    ((GetChannelPlaylist (fun _ _ => .ok ⟨[], 0, ""⟩) (fun _ _ => .ok ⟨[], ""⟩) NewMemoryCache
        ⟨"chan", none, some ⟨some ⟨"", "upl"⟩⟩, none⟩ 3).cache.GetPlaylist "chan-3"
      = some ⟨[], ""⟩)
    ∧ ((GetChannelPlaylist (fun _ _ => .ok ⟨[], 0, ""⟩) (fun _ _ => .ok ⟨[], ""⟩) NewMemoryCache
        ⟨"chan", none, some ⟨some ⟨"", "upl"⟩⟩, none⟩ 3).cache.GetPlaylist "upl-3" = none)
    ∧ ((⟨"chan", none, some ⟨some ⟨"", "upl"⟩⟩, none⟩ : Item).contentDetails
      = some ⟨some ⟨"", "upl"⟩⟩)
    ∧ ((GetChannelPlaylist (fun _ _ => .ok ⟨[], 0, ""⟩) (fun _ _ => .ok ⟨[], ""⟩)
        (NewMemoryCache.SetPlaylist "upl-3" (some ⟨[], "T"⟩))
        ⟨"chan", none, some ⟨some ⟨"", "upl"⟩⟩, none⟩ 3).calls = 1)
    ∧ ((GetChannelPlaylist (fun _ _ => .ok ⟨[], 0, ""⟩) (fun _ _ => .ok ⟨[], ""⟩)
        (NewMemoryCache.SetPlaylist "chan-3" (some ⟨[], "T"⟩))
        ⟨"chan", none, some ⟨some ⟨"", "upl"⟩⟩, none⟩ 3).calls = 0) := by decide

/-- C5 (amended): `GetChannelPlaylist` reads and writes its playlist
cache partition under the key `item.Id + "-" + strconv.Itoa(vidCount)`
(the CHANNEL item's id, not the uploads-playlist id): a value cached
under that key is returned as-is with zero fetches, every other playlist
key is left unchanged, and the video and channel partitions are never
touched. -/
theorem channelPlaylist_cache_key_shape :
    (∀ (pf : String → String → Except String ChannelPlaylistVideoResults)
        (vf : String → String → Except String VideoResults)
        (yt : MemoryCache) (item : Item) (vidCount : Int) (v : VideoResults),
      yt.GetPlaylist (item.id ++ "-" ++ toString vidCount) = some v →
      GetChannelPlaylist pf vf yt item vidCount = ⟨some v, none, yt, 0⟩)
    ∧ (∀ (pf : String → String → Except String ChannelPlaylistVideoResults)
        (vf : String → String → Except String VideoResults)
        (yt : MemoryCache) (item : Item) (vidCount : Int) (k : String),
      k ≠ item.id ++ "-" ++ toString vidCount →
      (GetChannelPlaylist pf vf yt item vidCount).cache.GetPlaylist k = yt.GetPlaylist k)
    ∧ (∀ (pf : String → String → Except String ChannelPlaylistVideoResults)
        (vf : String → String → Except String VideoResults)
        (yt : MemoryCache) (item : Item) (vidCount : Int) (k : String),
      (GetChannelPlaylist pf vf yt item vidCount).cache.GetVideo k = yt.GetVideo k
      ∧ (GetChannelPlaylist pf vf yt item vidCount).cache.GetChannel k = yt.GetChannel k) := by
  refine ⟨?_, ?_, ?_⟩
  · intro pf vf yt item vidCount v h
    exact GetChannelPlaylist_hit pf vf yt item vidCount v h
  · intro pf vf yt item vidCount k hk
    cases hd : yt.GetPlaylist (item.id ++ "-" ++ toString vidCount) with
    | some v => rw [GetChannelPlaylist_hit pf vf yt item vidCount v hd]
    | none =>
      cases hcd : item.contentDetails with
      | none =>
        rw [GetChannelPlaylist_nil_contentDetails pf vf yt item vidCount hd hcd]
        exact getPlaylist_setPlaylist_other yt _ k none hk
      | some cd =>
        cases hrp : cd.relatedPlaylists with
        | none =>
          rw [GetChannelPlaylist_nil_relatedPlaylists pf vf yt item vidCount cd hd hcd hrp]
          exact getPlaylist_setPlaylist_other yt _ k none hk
        | some rp =>
          cases hie : (getChannelPlaylist pf vf yt rp.uploads vidCount).err with
          | some e =>
            rw [GetChannelPlaylist_inner_error pf vf yt item vidCount cd rp e hd hcd hrp hie]
            exact getChannelPlaylist_playlist_frame pf vf yt rp.uploads vidCount k
          | none =>
            cases hres : (getChannelPlaylist pf vf yt rp.uploads vidCount).result with
            | none =>
              rw [GetChannelPlaylist_inner_none pf vf yt item vidCount cd rp hd hcd hrp hie hres]
              exact getChannelPlaylist_playlist_frame pf vf yt rp.uploads vidCount k
            | some results =>
              rw [GetChannelPlaylist_success pf vf yt item vidCount cd rp results hd hcd hrp hie hres]
              rw [getPlaylist_setPlaylist_other _ _ k (some results) hk]
              exact getChannelPlaylist_playlist_frame pf vf yt rp.uploads vidCount k
  · intro pf vf yt item vidCount k
    cases hd : yt.GetPlaylist (item.id ++ "-" ++ toString vidCount) with
    | some v => rw [GetChannelPlaylist_hit pf vf yt item vidCount v hd]; exact ⟨rfl, rfl⟩
    | none =>
      cases hcd : item.contentDetails with
      | none =>
        rw [GetChannelPlaylist_nil_contentDetails pf vf yt item vidCount hd hcd]
        exact ⟨getVideo_setPlaylist yt _ k none, getChannel_setPlaylist yt _ k none⟩
      | some cd =>
        cases hrp : cd.relatedPlaylists with
        | none =>
          rw [GetChannelPlaylist_nil_relatedPlaylists pf vf yt item vidCount cd hd hcd hrp]
          exact ⟨getVideo_setPlaylist yt _ k none, getChannel_setPlaylist yt _ k none⟩
        | some rp =>
          cases hie : (getChannelPlaylist pf vf yt rp.uploads vidCount).err with
          | some e =>
            rw [GetChannelPlaylist_inner_error pf vf yt item vidCount cd rp e hd hcd hrp hie]
            exact ⟨getChannelPlaylist_video_frame pf vf yt rp.uploads vidCount k,
              getChannelPlaylist_channel_frame pf vf yt rp.uploads vidCount k⟩
          | none =>
            cases hres : (getChannelPlaylist pf vf yt rp.uploads vidCount).result with
            | none =>
              rw [GetChannelPlaylist_inner_none pf vf yt item vidCount cd rp hd hcd hrp hie hres]
              exact ⟨getChannelPlaylist_video_frame pf vf yt rp.uploads vidCount k,
                getChannelPlaylist_channel_frame pf vf yt rp.uploads vidCount k⟩
            | some results =>
              rw [GetChannelPlaylist_success pf vf yt item vidCount cd rp results hd hcd hrp hie hres]
              constructor
              · rw [getVideo_setPlaylist _ _ k (some results)]
                exact getChannelPlaylist_video_frame pf vf yt rp.uploads vidCount k
              · rw [getChannel_setPlaylist _ _ k (some results)]
                exact getChannelPlaylist_channel_frame pf vf yt rp.uploads vidCount k

/-- Witness for C5 (amended): a value stored under `"chan-3"` is served
as-is for the item with id `"chan"` and count 3. -/
theorem channelPlaylist_cache_key_shape_witness :
    ((NewMemoryCache.SetPlaylist "chan-3" (some ⟨[], "T"⟩)).GetPlaylist
        ((⟨"chan", none, none, none⟩ : Item).id ++ "-" ++ toString (3 : Int)) = some ⟨[], "T"⟩)
    ∧ (GetChannelPlaylist (fun _ _ => (Except.error "never" : Except String ChannelPlaylistVideoResults))
        (fun _ _ => (Except.error "never" : Except String VideoResults))
        (NewMemoryCache.SetPlaylist "chan-3" (some ⟨[], "T"⟩))
        ⟨"chan", none, none, none⟩ 3 =
      ⟨some ⟨[], "T"⟩, none, NewMemoryCache.SetPlaylist "chan-3" (some ⟨[], "T"⟩), 0⟩) :=
  ⟨by decide,
    channelPlaylist_cache_key_shape.1 (fun _ _ => .error "never") (fun _ _ => .error "never")
      (NewMemoryCache.SetPlaylist "chan-3" (some ⟨[], "T"⟩))
      ⟨"chan", none, none, none⟩ 3 ⟨[], "T"⟩ (by decide)⟩

/-! ## Claim C9 -/

/-- C9 as frozen fails: after a first `GetChannelPlaylist` call on an
item with nil content-details errors and stores the nil marker,
`GetPlaylist` on that key still returns nil (the marker is
indistinguishable from an absent entry, because the hit test is
`v != nil`), and a second identical call is NOT answered from the cache:
it re-executes the failure path and errors again. -/
theorem nil_marker_not_a_cache_answer :
    ((GetChannelPlaylist (fun _ _ => .ok ⟨[], 0, ""⟩) (fun _ _ => .ok ⟨[], ""⟩) NewMemoryCache
        ⟨"chan", none, none, none⟩ 3).err = some "contentDetails or RelatedPlaylists are nil")
    ∧ ((GetChannelPlaylist (fun _ _ => .ok ⟨[], 0, ""⟩) (fun _ _ => .ok ⟨[], ""⟩) NewMemoryCache
        ⟨"chan", none, none, none⟩ 3).cache.GetPlaylist "chan-3" = none)
    ∧ ((GetChannelPlaylist (fun _ _ => .ok ⟨[], 0, ""⟩) (fun _ _ => .ok ⟨[], ""⟩)
        (GetChannelPlaylist (fun _ _ => .ok ⟨[], 0, ""⟩) (fun _ _ => .ok ⟨[], ""⟩) NewMemoryCache
          ⟨"chan", none, none, none⟩ 3).cache
        ⟨"chan", none, none, none⟩ 3).err = some "contentDetails or RelatedPlaylists are nil")
    ∧ ((GetChannelPlaylist (fun _ _ => .ok ⟨[], 0, ""⟩) (fun _ _ => .ok ⟨[], ""⟩)
        (GetChannelPlaylist (fun _ _ => .ok ⟨[], 0, ""⟩) (fun _ _ => .ok ⟨[], ""⟩) NewMemoryCache
          ⟨"chan", none, none, none⟩ 3).cache
        ⟨"chan", none, none, none⟩ 3).result = none) := by decide

/-- C9 (amended): on a missing content-details or related-playlists
block, `GetChannelPlaylist` stores nil under the item's cache key and
returns the error "contentDetails or RelatedPlaylists are nil" with no
upstream fetch; but because the cache-hit test requires a non-nil value,
the stored nil marker is indistinguishable from an absent entry, so a
subsequent call with the same key misses the cache and re-executes the
failure path, returning the same error (the failure is NOT effectively
cached). -/
theorem nil_marker_stored_but_failure_reruns
    (pf : String → String → Except String ChannelPlaylistVideoResults)
    (vf : String → String → Except String VideoResults)
    (yt : MemoryCache) (item : Item) (vidCount : Int)
    (hmiss : yt.GetPlaylist (item.id ++ "-" ++ toString vidCount) = none)
    (hnil : item.contentDetails = none
      ∨ ∃ cd, item.contentDetails = some cd ∧ cd.relatedPlaylists = none) :
    (GetChannelPlaylist pf vf yt item vidCount).err
      = some "contentDetails or RelatedPlaylists are nil"
    ∧ (GetChannelPlaylist pf vf yt item vidCount).result = none
    ∧ (GetChannelPlaylist pf vf yt item vidCount).calls = 0
    ∧ (GetChannelPlaylist pf vf yt item vidCount).cache.GetPlaylist
        (item.id ++ "-" ++ toString vidCount) = none
    ∧ (GetChannelPlaylist pf vf (GetChannelPlaylist pf vf yt item vidCount).cache
        item vidCount).err = some "contentDetails or RelatedPlaylists are nil" := by
  rcases hnil with hcd | ⟨cd, hcd, hrp⟩
  · rw [GetChannelPlaylist_nil_contentDetails pf vf yt item vidCount hmiss hcd]
    refine ⟨rfl, rfl, rfl, getPlaylist_setPlaylist_same .., ?_⟩
    rw [GetChannelPlaylist_nil_contentDetails pf vf _ item vidCount
      (getPlaylist_setPlaylist_same ..) hcd]
  · rw [GetChannelPlaylist_nil_relatedPlaylists pf vf yt item vidCount cd hmiss hcd hrp]
    refine ⟨rfl, rfl, rfl, getPlaylist_setPlaylist_same .., ?_⟩
    rw [GetChannelPlaylist_nil_relatedPlaylists pf vf _ item vidCount cd
      (getPlaylist_setPlaylist_same ..) hcd hrp]

/-- Witness for C9 (amended) at a concrete item with nil content-details. -/
theorem nil_marker_stored_but_failure_reruns_witness :
    (NewMemoryCache.GetPlaylist
        ((⟨"chan", none, none, none⟩ : Item).id ++ "-" ++ toString (3 : Int)) = none)
    ∧ ((⟨"chan", none, none, none⟩ : Item).contentDetails = none)
    ∧ ((GetChannelPlaylist (fun _ _ => (Except.error "unused" : Except String ChannelPlaylistVideoResults))
          (fun _ _ => (Except.error "unused" : Except String VideoResults)) NewMemoryCache
          ⟨"chan", none, none, none⟩ 3).err = some "contentDetails or RelatedPlaylists are nil"
      ∧ (GetChannelPlaylist (fun _ _ => .error "unused") (fun _ _ => .error "unused") NewMemoryCache
          ⟨"chan", none, none, none⟩ 3).result = none
      ∧ (GetChannelPlaylist (fun _ _ => .error "unused") (fun _ _ => .error "unused") NewMemoryCache
          ⟨"chan", none, none, none⟩ 3).calls = 0
      ∧ (GetChannelPlaylist (fun _ _ => .error "unused") (fun _ _ => .error "unused") NewMemoryCache
          ⟨"chan", none, none, none⟩ 3).cache.GetPlaylist
          ((⟨"chan", none, none, none⟩ : Item).id ++ "-" ++ toString (3 : Int)) = none
      ∧ (GetChannelPlaylist (fun _ _ => .error "unused") (fun _ _ => .error "unused")
          (GetChannelPlaylist (fun _ _ => .error "unused") (fun _ _ => .error "unused") NewMemoryCache
            ⟨"chan", none, none, none⟩ 3).cache
          ⟨"chan", none, none, none⟩ 3).err = some "contentDetails or RelatedPlaylists are nil") :=
  ⟨by decide, by decide,
    nil_marker_stored_but_failure_reruns (fun _ _ => .error "unused") (fun _ _ => .error "unused")
      NewMemoryCache ⟨"chan", none, none, none⟩ 3 (by decide) (Or.inl rfl)⟩
